import Mathlib

/-!
Verification of `src/dm_writer.py` (template-based DM3 writer).

The module is embedded shallowly:

* numpy dtypes become the inductive `DType`; the two module-level code
  tables `_ARRAY_TYPES` / `_IMAGE_DTYPES` become `arrayTypeCode` /
  `imageDtypeCode` (a `none` result models absence of the key, i.e. a
  Python `KeyError` on lookup / `not in` on membership test);
* a numpy 2-D (or N-D) array becomes `NDArray`: shape, dtype and the
  flattened row-major element list (elements as `ℚ`, which embeds every
  integer value exactly; the numpy invariant `data.size = prod shape`
  is carried as a structure field);
* byte buffers are `List Nat` (each entry one byte); `struct.pack_into`
  becomes `pack_into`, `'>I'`/`'<I'` packing become `pack_be32` /
  `pack_le32` with the machine-integer wraparound written as `% 256`
  of the shifted value;
* IEEE-754 binary32 byte encoding (used by `struct.pack '<f'` and by
  `ndarray.tobytes` for float elements) and the value rounding done by
  `ndarray.astype` are not re-implemented bit-for-bit: they enter as
  the parameter structure `NumEnc`, an arbitrary element-byte encoder
  producing the correct number of bytes per element plus an arbitrary
  astype value conversion.  Every claim below is independent of the
  concrete bit patterns, so each theorem quantifies over all such
  encoders; the calibration arithmetic itself (the zero-scale guard
  and the division `origin = -offset / scale`) is concrete, over `ℚ`;
* the two `open(...)` calls (template read, output write) are modelled
  by passing the template bytes in and returning the result bytes;
  `raise ValueError(...)` becomes `Except.error` with a `DMError` tag
  distinguishing the two messages, and the (unreachable) `KeyError`
  of a failed dict lookup is `DMError.keyError`.
-/

/-- Numpy element dtypes as far as `dm_writer` distinguishes them.
`other w` stands for any dtype outside the eight table keys and the
three explicitly coerced 64-bit kinds (e.g. `float16`, `bool`,
`complex128`), carrying its item size `w`. -/
inductive DType where
  | int8
  | uint8
  | int16
  | uint16
  | int32
  | uint32
  | float32
  | float64
  | int64
  | uint64
  | other (w : Nat)
deriving DecidableEq

/-- `numpy.dtype.itemsize`: bytes per element. -/
def DType.itemsize : DType → Nat
  | .int8 => 1
  | .uint8 => 1
  | .int16 => 2
  | .uint16 => 2
  | .int32 => 4
  | .uint32 => 4
  | .float32 => 4
  | .float64 => 8
  | .int64 => 8
  | .uint64 => 8
  | .other w => w

/-- The `_ARRAY_TYPES` dict of `dm_writer.py` (DM array storage type
codes); `none` models a missing key. -/
def arrayTypeCode : DType → Option Nat
  | .int8 => some 10
  | .uint8 => some 10
  | .int16 => some 2
  | .uint16 => some 4
  | .int32 => some 3
  | .uint32 => some 5
  | .float32 => some 6
  | .float64 => some 7
  | _ => none

/-- The `_IMAGE_DTYPES` dict of `dm_writer.py` (DM image display type
codes); `none` models a missing key. -/
def imageDtypeCode : DType → Option Nat
  | .int8 => some 9
  | .uint8 => some 6
  | .int16 => some 1
  | .uint16 => some 10
  | .int32 => some 7
  | .uint32 => some 11
  | .float32 => some 2
  | .float64 => some 12
  | _ => none

/-- A numpy array: shape, dtype, and the flattened row-major element
list.  `hlen` is numpy's invariant `size = prod shape`. -/
structure NDArray where
  shape : List Nat
  dtype : DType
  data : List ℚ
  hlen : data.length = shape.prod

/-- `ndarray.ndim`. -/
def NDArray.ndim (a : NDArray) : Nat := a.shape.length

/-- Abstract numeric byte-encoding parameters: `elemEnc d q` is the
byte encoding of element value `q` at dtype `d` (for float dtypes this
stands for the IEEE-754 little-endian pattern, for integer dtypes the
native little-endian two's-complement pattern); `elemEnc_len` fixes
the element width.  `conv d q` is the value conversion performed by
`ndarray.astype` towards target dtype `d` (rounding/truncation). -/
structure NumEnc where
  elemEnc : DType → ℚ → List Nat
  elemEnc_len : ∀ d q, (elemEnc d q).length = d.itemsize
  conv : DType → ℚ → ℚ

/-- A concrete instance of `NumEnc` (all-zero bit patterns, identity
conversion), used to instantiate the abstract encoder in witnesses. -/
def zeroEnc : NumEnc where
  elemEnc := fun d _ => List.replicate d.itemsize 0
  elemEnc_len := fun d _ => List.length_replicate d.itemsize 0
  conv := fun _ q => q

/-- `ndarray.astype(target)`: same shape, new dtype, values converted
elementwise. -/
def astype (E : NumEnc) (a : NDArray) (d : DType) : NDArray where
  shape := a.shape
  dtype := d
  data := a.data.map (E.conv d)
  hlen := by rw [List.length_map]; exact a.hlen

/-- `ndarray.tobytes()`: row-major concatenation of the per-element
byte encodings. -/
def tobytes (E : NumEnc) (a : NDArray) : List Nat :=
  (a.data.map (E.elemEnc a.dtype)).flatten

/-- `struct.pack('>I', v)`: big-endian 4-byte encoding (the Python
call raises for `v ≥ 2^32`; here the bytes are those of `v % 2^32`,
and every claim that reads such a field back carries the
corresponding bound). -/
def pack_be32 (v : Nat) : List Nat :=
  [v / 16777216 % 256, v / 65536 % 256, v / 256 % 256, v % 256]

/-- `struct.pack('<I', v)`: little-endian 4-byte encoding. -/
def pack_le32 (v : Nat) : List Nat :=
  [v % 256, v / 256 % 256, v / 65536 % 256, v / 16777216 % 256]

/-- `struct.pack_into(fmt, buf, off, v)` as a pure buffer update:
replace `bs.length` bytes of `buf` starting at `off`. -/
def pack_into (buf : List Nat) (off : Nat) (bs : List Nat) : List Nat :=
  buf.take off ++ (bs ++ buf.drop (off + bs.length))

/-- The `len` bytes of `l` starting at offset `off` (`l[off:off+len]`). -/
def sliceAt (l : List Nat) (off len : Nat) : List Nat :=
  (l.drop off).take len

/-- Byte of `l` at index `i` (0 when out of range; all uses are in
range). -/
def byteAt (l : List Nat) (i : Nat) : Nat := l.getD i 0

/-- Read 4 bytes at `off` as a big-endian unsigned integer. -/
def read_be32 (l : List Nat) (off : Nat) : Nat :=
  ((byteAt l off * 256 + byteAt l (off + 1)) * 256 + byteAt l (off + 2)) * 256
    + byteAt l (off + 3)

/-- Read 4 bytes at `off` as a little-endian unsigned integer. -/
def read_le32 (l : List Nat) (off : Nat) : Nat :=
  byteAt l off
    + 256 * (byteAt l (off + 1)
    + 256 * (byteAt l (off + 2) + 256 * byteAt l (off + 3)))

/-! Verified byte offsets of `dm_writer.py` (the module-level
constants, leading underscores dropped). -/

/-- `_CAL_DIM1_ORIGIN`: x-axis origin field (float32 LE). -/
def CAL_DIM1_ORIGIN : Nat := 152441
/-- `_CAL_DIM1_SCALE`: x-axis scale field (float32 LE). -/
def CAL_DIM1_SCALE : Nat := 152465
/-- `_CAL_DIM2_ORIGIN`: y-axis origin field (float32 LE). -/
def CAL_DIM2_ORIGIN : Nat := 152535
/-- `_CAL_DIM2_SCALE`: y-axis scale field (float32 LE). -/
def CAL_DIM2_SCALE : Nat := 152559
/-- `_DATA_ELEM_TYPE`: DM array element type field (BE uint32). -/
def DATA_ELEM_TYPE : Nat := 152656
/-- `_DATA_ELEM_COUNT`: element count field (BE uint32). -/
def DATA_ELEM_COUNT : Nat := 152660
/-- `_DATA_BODY`: first byte of pixel data. -/
def DATA_BODY : Nat := 152664
/-- `_ORIG_DATA_BYTES`: pixel bytes in the reference (7569 * 4). -/
def ORIG_DATA_BYTES : Nat := 7569 * 4
/-- `_SUFFIX_START`: first byte after the reference pixel data. -/
def SUFFIX_START : Nat := DATA_BODY + ORIG_DATA_BYTES
/-- `_REL_DATATYPE`: display type code, relative to suffix start. -/
def REL_DATATYPE : Nat := 182963 - SUFFIX_START
/-- `_REL_DIM_NX`: column count, relative to suffix start. -/
def REL_DIM_NX : Nat := 183001 - SUFFIX_START
/-- `_REL_DIM_NY`: row count, relative to suffix start. -/
def REL_DIM_NY : Nat := 183020 - SUFFIX_START
/-- `_REL_PIXELDEPTH`: pixel depth, relative to suffix start. -/
def REL_PIXELDEPTH : Nat := 183049 - SUFFIX_START
/-- Byte length of the reference template file
(`reference_template.dm3`, 192708 bytes: header field 192688 + 20). -/
def REF_LENGTH : Nat := 192708

/-- Error outcomes of `write_dm`: the two `ValueError`s raised on
lines 90 and 92 of `dm_writer.py`, plus the (unreachable) `KeyError`
of a dict lookup at a missing dtype. -/
inductive DMError where
  | unsupportedVersion
  | shapeError
  | keyError
deriving DecidableEq

/-- The dtype coercion block of `write_dm` (lines 94-103): 64-bit
kinds are narrowed, any dtype outside `_ARRAY_TYPES` falls back to
float32, everything else is kept.  (`np.ascontiguousarray` is the
identity here: `NDArray.data` is already the contiguous row-major
element list.) -/
def coerceArray (E : NumEnc) (data : NDArray) : NDArray :=
  if data.dtype = .float64 then astype E data .float32
  else if data.dtype = .int64 then astype E data .int32
  else if data.dtype = .uint64 then astype E data .uint32
  else if arrayTypeCode data.dtype = none then astype E data .float32
  else data

/-- The effect of `coerceArray` on the dtype alone. -/
def coerceDType (d : DType) : DType :=
  if d = .float64 then .float32
  else if d = .int64 then .int32
  else if d = .uint64 then .uint32
  else if arrayTypeCode d = none then .float32
  else d

/-- Patch the template prefix (bytes `[0, DATA_BODY)`): the four
calibration fields as float32 LE (lines 128-136, with the zero-scale
guard before the origin division) and the two data-info fields as BE
uint32 (lines 139-140).  `scales`/`offsets` are the `(y, x)` pairs. -/
def patchPref (E : NumEnc) (ref : List Nat) (scales offsets : ℚ × ℚ)
    (elem_type count : Nat) : List Nat :=
  let pre := ref.take DATA_BODY
  let pre := pack_into pre CAL_DIM1_SCALE (E.elemEnc .float32 scales.2)
  let pre := pack_into pre CAL_DIM2_SCALE (E.elemEnc .float32 scales.1)
  let x_scale : ℚ := if scales.2 ≠ 0 then scales.2 else 1
  let y_scale : ℚ := if scales.1 ≠ 0 then scales.1 else 1
  let x_origin := -offsets.2 / x_scale
  let y_origin := -offsets.1 / y_scale
  let pre := pack_into pre CAL_DIM1_ORIGIN (E.elemEnc .float32 x_origin)
  let pre := pack_into pre CAL_DIM2_ORIGIN (E.elemEnc .float32 y_origin)
  let pre := pack_into pre DATA_ELEM_TYPE (pack_be32 elem_type)
  pack_into pre DATA_ELEM_COUNT (pack_be32 count)

/-- Patch the template suffix (bytes from `SUFFIX_START` on): the four
relative fields as LE uint32 (lines 146-149). -/
def patchSuff (ref : List Nat) (image_dtype nx ny pixel_depth : Nat) :
    List Nat :=
  let suff := ref.drop SUFFIX_START
  let suff := pack_into suff REL_DATATYPE (pack_le32 image_dtype)
  let suff := pack_into suff REL_DIM_NX (pack_le32 nx)
  let suff := pack_into suff REL_DIM_NY (pack_le32 ny)
  pack_into suff REL_PIXELDEPTH (pack_le32 pixel_depth)

/-- Assemble `prefix + data_bytes + suffix` and patch the header
file-size field at offset 4 with `len(result) - 20` (lines 152-153).
`data` is the already-coerced array. -/
def assemble (E : NumEnc) (ref : List Nat) (data : NDArray)
    (scales offsets : ℚ × ℚ) (ny nx elem_type image_dtype : Nat) :
    List Nat :=
  let result := patchPref E ref scales offsets elem_type (nx * ny) ++
    (tobytes E data ++ patchSuff ref image_dtype nx ny data.dtype.itemsize)
  pack_into result 4 (pack_be32 (result.length - 20))

/-- `write_dm(filepath, data, pixel_scales, pixel_offsets, title,
version)` of `dm_writer.py`, lines 68-156.  `ref` is the byte content
of `reference_template.dm3`; the returned buffer is what the function
writes to `filepath` (the path itself, `pixel_units` and `title` are
ignored by the source beyond the final file write).  `pixel_scales`
and `pixel_offsets` are the optional `(y, x)` pairs with the source's
defaults `(1.0, 1.0)` and `(0.0, 0.0)`. -/
def write_dm (E : NumEnc) (ref : List Nat) (data : NDArray)
    (pixel_scales pixel_offsets : Option (ℚ × ℚ)) (version : ℤ) :
    Except DMError (List Nat) :=
  if version ≠ 3 then .error .unsupportedVersion
  else if data.ndim ≠ 2 then .error .shapeError
  else
    let d := coerceArray E data
    match d.shape with
    | [ny, nx] =>
      match arrayTypeCode d.dtype, imageDtypeCode d.dtype with
      | some elem_type, some image_dtype =>
        .ok (assemble E ref d (pixel_scales.getD (1, 1))
          (pixel_offsets.getD (0, 0)) ny nx elem_type image_dtype)
      | _, _ => .error .keyError
    | _ => .error .shapeError

/-! ## Basic buffer lemmas -/

/-- `pack_be32` always yields 4 bytes. -/
theorem pack_be32_length (v : Nat) : (pack_be32 v).length = 4 := rfl

/-- `pack_le32` always yields 4 bytes. -/
theorem pack_le32_length (v : Nat) : (pack_le32 v).length = 4 := rfl

/-- An in-range `pack_into` preserves the buffer length. -/
theorem pack_into_length (buf : List Nat) (off : Nat) (bs : List Nat)
    (h : off + bs.length ≤ buf.length) :
    (pack_into buf off bs).length = buf.length := by
  simp only [pack_into, List.length_append, List.length_take, List.length_drop]
  omega

/-- Pointwise description of an in-range `pack_into`. -/
theorem pack_into_getElem? (buf : List Nat) (off : Nat) (bs : List Nat) (i : Nat)
    (h : off + bs.length ≤ buf.length) :
    (pack_into buf off bs)[i]? =
      if off ≤ i ∧ i < off + bs.length then bs[i - off]? else buf[i]? := by
  have htake : (buf.take off).length = off := by
    rw [List.length_take]; omega
  unfold pack_into
  by_cases h1 : i < off
  · rw [List.getElem?_append_left (by omega), List.getElem?_take, if_pos h1,
      if_neg (by omega)]
  · rw [List.getElem?_append_right (by omega), htake]
    by_cases h2 : i < off + bs.length
    · rw [List.getElem?_append_left (by omega), if_pos ⟨by omega, h2⟩]
    · rw [List.getElem?_append_right (by omega), List.getElem?_drop,
        if_neg (by omega)]
      have harith : off + bs.length + (i - off - bs.length) = i := by omega
      rw [harith]

/-- Bytes outside the written field are untouched by `pack_into`. -/
theorem pack_into_getElem?_out (buf : List Nat) (off : Nat) (bs : List Nat)
    (i : Nat) (h : off + bs.length ≤ buf.length)
    (hi : i < off ∨ off + bs.length ≤ i) :
    (pack_into buf off bs)[i]? = buf[i]? := by
  rw [pack_into_getElem? buf off bs i h, if_neg (by omega)]

/-- Pointwise description of `sliceAt`. -/
theorem sliceAt_getElem? (l : List Nat) (off len k : Nat) :
    (sliceAt l off len)[k]? = if k < len then l[off + k]? else none := by
  unfold sliceAt
  rw [List.getElem?_take, List.getElem?_drop]

/-- A slice is determined by the bytes it covers. -/
theorem sliceAt_eq_of_getElem? (l : List Nat) (off len : Nat) (bs : List Nat)
    (hlen : bs.length = len) (h : ∀ k, k < len → l[off + k]? = bs[k]?) :
    sliceAt l off len = bs := by
  apply List.ext_getElem?
  intro n
  rw [sliceAt_getElem?]
  by_cases hn : n < len
  · rw [if_pos hn]; exact h n hn
  · rw [if_neg hn]
    exact (List.getElem?_eq_none (by omega)).symm

/-- Reading back the field just written by `pack_into`. -/
theorem sliceAt_pack_into_self (buf : List Nat) (off : Nat) (bs : List Nat)
    (h : off + bs.length ≤ buf.length) :
    sliceAt (pack_into buf off bs) off bs.length = bs := by
  apply sliceAt_eq_of_getElem? _ _ _ _ rfl
  intro k hk
  rw [pack_into_getElem? _ _ _ _ h, if_pos ⟨by omega, by omega⟩]
  have harith : off + k - off = k := by omega
  rw [harith]

/-- A slice disjoint from the written field is untouched by `pack_into`. -/
theorem sliceAt_pack_into_out (buf : List Nat) (off : Nat) (bs : List Nat)
    (off2 len : Nat) (h : off + bs.length ≤ buf.length)
    (hd : off2 + len ≤ off ∨ off + bs.length ≤ off2) :
    sliceAt (pack_into buf off bs) off2 len = sliceAt buf off2 len := by
  apply List.ext_getElem?
  intro n
  rw [sliceAt_getElem?, sliceAt_getElem?]
  by_cases hn : n < len
  · rw [if_pos hn, if_pos hn, pack_into_getElem? _ _ _ _ h, if_neg (by omega)]
  · rw [if_neg hn, if_neg hn]

/-- A slice inside the left part of an append. -/
theorem sliceAt_append_left (u v : List Nat) (off len : Nat)
    (h : off + len ≤ u.length) :
    sliceAt (u ++ v) off len = sliceAt u off len := by
  apply List.ext_getElem?
  intro n
  rw [sliceAt_getElem?, sliceAt_getElem?]
  by_cases hn : n < len
  · rw [if_pos hn, if_pos hn, List.getElem?_append_left (by omega)]
  · rw [if_neg hn, if_neg hn]

/-- A slice inside the right part of an append. -/
theorem sliceAt_append_right (u v : List Nat) (off len : Nat) :
    sliceAt (u ++ v) (u.length + off) len = sliceAt v off len := by
  apply List.ext_getElem?
  intro n
  rw [sliceAt_getElem?, sliceAt_getElem?]
  by_cases hn : n < len
  · rw [if_pos hn, if_pos hn, List.getElem?_append_right (by omega)]
    have harith : u.length + off + n - u.length = off + n := by omega
    rw [harith]
  · rw [if_neg hn, if_neg hn]

/-- A byte inside a known slice. -/
theorem byteAt_of_slice (l : List Nat) (off n : Nat) (bs : List Nat)
    (h : sliceAt l off n = bs) (k : Nat) (hk : k < n) :
    byteAt l (off + k) = bs.getD k 0 := by
  have h1 : l[off + k]? = bs[k]? := by
    have h2 := congrArg (fun t => t[k]?) h
    simpa only [sliceAt_getElem?, if_pos hk] using h2
  simp [byteAt, List.getD_eq_getElem?_getD, h1]

/-! ## Sequential field writes -/

/-- Apply a sequence of `pack_into` field writes, in order. -/
def packs (buf : List Nat) : List (Nat × List Nat) → List Nat
  | [] => buf
  | p :: ps => packs (pack_into buf p.1 p.2) ps

/-- All field writes in `ps` fit in a buffer of length `L`. -/
def packsWF (L : Nat) : List (Nat × List Nat) → Prop
  | [] => True
  | p :: ps => p.1 + p.2.length ≤ L ∧ packsWF L ps

/-- All field writes in `ps` are disjoint from the range
`[off, off + len)`. -/
def packsAvoid (off len : Nat) : List (Nat × List Nat) → Prop
  | [] => True
  | p :: ps => (off + len ≤ p.1 ∨ p.1 + p.2.length ≤ off) ∧ packsAvoid off len ps

theorem packs_append (buf : List Nat) (l1 l2 : List (Nat × List Nat)) :
    packs buf (l1 ++ l2) = packs (packs buf l1) l2 := by
  induction l1 generalizing buf with
  | nil => rfl
  | cons p ps ih => rw [List.cons_append, packs, packs, ih]

theorem packs_length (buf : List Nat) (ps : List (Nat × List Nat))
    (hw : packsWF buf.length ps) : (packs buf ps).length = buf.length := by
  induction ps generalizing buf with
  | nil => rfl
  | cons p ps ih =>
    have h1 := hw.1
    have hlen := pack_into_length buf p.1 p.2 h1
    rw [packs, ih _ (by rw [hlen]; exact hw.2), hlen]

theorem packs_getElem?_out (buf : List Nat) (ps : List (Nat × List Nat)) (i : Nat)
    (hw : packsWF buf.length ps) (hd : packsAvoid i 1 ps) :
    (packs buf ps)[i]? = buf[i]? := by
  induction ps generalizing buf with
  | nil => rfl
  | cons p ps ih =>
    have h1 := hw.1
    have hd1 := hd.1
    have hlen := pack_into_length buf p.1 p.2 h1
    rw [packs, ih _ (by rw [hlen]; exact hw.2) hd.2,
      pack_into_getElem?_out _ _ _ _ h1 (by omega)]

theorem packs_sliceAt_out (buf : List Nat) (ps : List (Nat × List Nat))
    (off len : Nat) (hw : packsWF buf.length ps) (hd : packsAvoid off len ps) :
    sliceAt (packs buf ps) off len = sliceAt buf off len := by
  induction ps generalizing buf with
  | nil => rfl
  | cons p ps ih =>
    have h1 := hw.1
    have hd1 := hd.1
    have hlen := pack_into_length buf p.1 p.2 h1
    rw [packs, ih _ (by rw [hlen]; exact hw.2) hd.2,
      sliceAt_pack_into_out _ _ _ _ _ h1 hd1]

/-- Reading back one field of a sequence of writes: the writes after
it must avoid its range (the writes before it are overwritten). -/
theorem packs_sliceAt_mem (buf : List Nat) (ps1 ps2 : List (Nat × List Nat))
    (off : Nat) (bs : List Nat)
    (hw1 : packsWF buf.length ps1)
    (hw : off + bs.length ≤ buf.length)
    (hw2 : packsWF buf.length ps2)
    (hd2 : packsAvoid off bs.length ps2) :
    sliceAt (packs buf (ps1 ++ (off, bs) :: ps2)) off bs.length = bs := by
  rw [packs_append]
  have hl1 : (packs buf ps1).length = buf.length := packs_length _ _ hw1
  show sliceAt (packs (pack_into (packs buf ps1) off bs) ps2) off bs.length = bs
  have hw' : off + bs.length ≤ (packs buf ps1).length := by rw [hl1]; exact hw
  have hl2 : (pack_into (packs buf ps1) off bs).length = buf.length := by
    rw [pack_into_length _ _ _ hw', hl1]
  rw [packs_sliceAt_out _ _ _ _ (by rw [hl2]; exact hw2) hd2]
  exact sliceAt_pack_into_self _ _ _ hw'

/-! ## The patched prefix -/

/-- The six field writes of `patchPref`, in execution order. -/
def prefFields (E : NumEnc) (sc po : ℚ × ℚ) (elem_type count : Nat) :
    List (Nat × List Nat) :=
  [(CAL_DIM1_SCALE, E.elemEnc .float32 sc.2),
   (CAL_DIM2_SCALE, E.elemEnc .float32 sc.1),
   (CAL_DIM1_ORIGIN, E.elemEnc .float32 (-po.2 / (if sc.2 ≠ 0 then sc.2 else 1))),
   (CAL_DIM2_ORIGIN, E.elemEnc .float32 (-po.1 / (if sc.1 ≠ 0 then sc.1 else 1))),
   (DATA_ELEM_TYPE, pack_be32 elem_type),
   (DATA_ELEM_COUNT, pack_be32 count)]

theorem patchPref_eq_packs (E : NumEnc) (ref : List Nat) (sc po : ℚ × ℚ)
    (elem_type count : Nat) :
    patchPref E ref sc po elem_type count =
      packs (ref.take DATA_BODY) (prefFields E sc po elem_type count) := rfl

/-- Membership in one of the six patched prefix fields. -/
def inPrefFields (i : Nat) : Prop :=
  (CAL_DIM1_ORIGIN ≤ i ∧ i < CAL_DIM1_ORIGIN + 4) ∨
  (CAL_DIM1_SCALE ≤ i ∧ i < CAL_DIM1_SCALE + 4) ∨
  (CAL_DIM2_ORIGIN ≤ i ∧ i < CAL_DIM2_ORIGIN + 4) ∨
  (CAL_DIM2_SCALE ≤ i ∧ i < CAL_DIM2_SCALE + 4) ∨
  (DATA_ELEM_TYPE ≤ i ∧ i < DATA_ELEM_TYPE + 4) ∨
  (DATA_ELEM_COUNT ≤ i ∧ i < DATA_ELEM_COUNT + 4)

theorem patchPref_length (E : NumEnc) (ref : List Nat) (sc po : ℚ × ℚ)
    (et cnt : Nat) (h : 152664 ≤ ref.length) :
    (patchPref E ref sc po et cnt).length = 152664 := by
  have e4 : ∀ q : ℚ, (E.elemEnc .float32 q).length = 4 :=
    fun q => E.elemEnc_len .float32 q
  have ht : (ref.take DATA_BODY).length = 152664 := by
    rw [List.length_take, DATA_BODY]; omega
  rw [patchPref_eq_packs, packs_length, ht]
  simp only [prefFields, packsWF, ht, e4, pack_be32_length, and_true,
    CAL_DIM1_ORIGIN, CAL_DIM1_SCALE, CAL_DIM2_ORIGIN, CAL_DIM2_SCALE,
    DATA_ELEM_TYPE, DATA_ELEM_COUNT]
  omega

theorem patchPref_getElem?_out (E : NumEnc) (ref : List Nat) (sc po : ℚ × ℚ)
    (et cnt i : Nat) (h : 152664 ≤ ref.length) (hi : i < 152664)
    (hout : ¬ inPrefFields i) :
    (patchPref E ref sc po et cnt)[i]? = ref[i]? := by
  have e4 : ∀ q : ℚ, (E.elemEnc .float32 q).length = 4 :=
    fun q => E.elemEnc_len .float32 q
  have ht : (ref.take DATA_BODY).length = 152664 := by
    rw [List.length_take, DATA_BODY]; omega
  simp only [inPrefFields, CAL_DIM1_ORIGIN, CAL_DIM1_SCALE, CAL_DIM2_ORIGIN,
    CAL_DIM2_SCALE, DATA_ELEM_TYPE, DATA_ELEM_COUNT] at hout
  have hw : packsWF (ref.take DATA_BODY).length (prefFields E sc po et cnt) := by
    simp only [prefFields, packsWF, ht, e4, pack_be32_length, and_true,
      CAL_DIM1_ORIGIN, CAL_DIM1_SCALE, CAL_DIM2_ORIGIN, CAL_DIM2_SCALE,
      DATA_ELEM_TYPE, DATA_ELEM_COUNT]
    omega
  have hd : packsAvoid i 1 (prefFields E sc po et cnt) := by
    simp only [prefFields, packsAvoid, e4, pack_be32_length, and_true,
      CAL_DIM1_ORIGIN, CAL_DIM1_SCALE, CAL_DIM2_ORIGIN, CAL_DIM2_SCALE,
      DATA_ELEM_TYPE, DATA_ELEM_COUNT]
    omega
  rw [patchPref_eq_packs, packs_getElem?_out _ _ _ hw hd]
  exact List.getElem?_take_of_lt hi

theorem patchPref_slice_xscale (E : NumEnc) (ref : List Nat) (sc po : ℚ × ℚ)
    (et cnt : Nat) (h : 152664 ≤ ref.length) :
    sliceAt (patchPref E ref sc po et cnt) CAL_DIM1_SCALE 4
      = E.elemEnc .float32 sc.2 := by
  have e4 : ∀ q : ℚ, (E.elemEnc .float32 q).length = 4 :=
    fun q => E.elemEnc_len .float32 q
  have ht : (ref.take DATA_BODY).length = 152664 := by
    rw [List.length_take, DATA_BODY]; omega
  have h5 := packs_sliceAt_mem (ref.take DATA_BODY) []
    [(CAL_DIM2_SCALE, E.elemEnc .float32 sc.1),
     (CAL_DIM1_ORIGIN, E.elemEnc .float32 (-po.2 / (if sc.2 ≠ 0 then sc.2 else 1))),
     (CAL_DIM2_ORIGIN, E.elemEnc .float32 (-po.1 / (if sc.1 ≠ 0 then sc.1 else 1))),
     (DATA_ELEM_TYPE, pack_be32 et),
     (DATA_ELEM_COUNT, pack_be32 cnt)]
    CAL_DIM1_SCALE (E.elemEnc .float32 sc.2)
    trivial
    (by simp only [e4, ht, CAL_DIM1_SCALE]; omega)
    (by simp only [packsWF, ht, e4, pack_be32_length, and_true,
          CAL_DIM1_ORIGIN, CAL_DIM2_ORIGIN, CAL_DIM2_SCALE,
          DATA_ELEM_TYPE, DATA_ELEM_COUNT]
        omega)
    (by simp only [packsAvoid, e4, pack_be32_length, and_true,
          CAL_DIM1_ORIGIN, CAL_DIM1_SCALE, CAL_DIM2_ORIGIN, CAL_DIM2_SCALE,
          DATA_ELEM_TYPE, DATA_ELEM_COUNT]
        omega)
  rw [e4] at h5
  rw [patchPref_eq_packs]
  exact h5

theorem patchPref_slice_yscale (E : NumEnc) (ref : List Nat) (sc po : ℚ × ℚ)
    (et cnt : Nat) (h : 152664 ≤ ref.length) :
    sliceAt (patchPref E ref sc po et cnt) CAL_DIM2_SCALE 4
      = E.elemEnc .float32 sc.1 := by
  have e4 : ∀ q : ℚ, (E.elemEnc .float32 q).length = 4 :=
    fun q => E.elemEnc_len .float32 q
  have ht : (ref.take DATA_BODY).length = 152664 := by
    rw [List.length_take, DATA_BODY]; omega
  have h5 := packs_sliceAt_mem (ref.take DATA_BODY)
    [(CAL_DIM1_SCALE, E.elemEnc .float32 sc.2)]
    [(CAL_DIM1_ORIGIN, E.elemEnc .float32 (-po.2 / (if sc.2 ≠ 0 then sc.2 else 1))),
     (CAL_DIM2_ORIGIN, E.elemEnc .float32 (-po.1 / (if sc.1 ≠ 0 then sc.1 else 1))),
     (DATA_ELEM_TYPE, pack_be32 et),
     (DATA_ELEM_COUNT, pack_be32 cnt)]
    CAL_DIM2_SCALE (E.elemEnc .float32 sc.1)
    (by simp only [packsWF, ht, e4, and_true, CAL_DIM1_SCALE]; omega)
    (by simp only [e4, ht, CAL_DIM2_SCALE]; omega)
    (by simp only [packsWF, ht, e4, pack_be32_length, and_true,
          CAL_DIM1_ORIGIN, CAL_DIM2_ORIGIN,
          DATA_ELEM_TYPE, DATA_ELEM_COUNT]
        omega)
    (by simp only [packsAvoid, e4, pack_be32_length, and_true,
          CAL_DIM1_ORIGIN, CAL_DIM2_ORIGIN, CAL_DIM2_SCALE,
          DATA_ELEM_TYPE, DATA_ELEM_COUNT]
        omega)
  rw [e4] at h5
  rw [patchPref_eq_packs]
  exact h5

theorem patchPref_slice_xorigin (E : NumEnc) (ref : List Nat) (sc po : ℚ × ℚ)
    (et cnt : Nat) (h : 152664 ≤ ref.length) :
    sliceAt (patchPref E ref sc po et cnt) CAL_DIM1_ORIGIN 4
      = E.elemEnc .float32 (-po.2 / (if sc.2 ≠ 0 then sc.2 else 1)) := by
  have e4 : ∀ q : ℚ, (E.elemEnc .float32 q).length = 4 :=
    fun q => E.elemEnc_len .float32 q
  have ht : (ref.take DATA_BODY).length = 152664 := by
    rw [List.length_take, DATA_BODY]; omega
  have h5 := packs_sliceAt_mem (ref.take DATA_BODY)
    [(CAL_DIM1_SCALE, E.elemEnc .float32 sc.2),
     (CAL_DIM2_SCALE, E.elemEnc .float32 sc.1)]
    [(CAL_DIM2_ORIGIN, E.elemEnc .float32 (-po.1 / (if sc.1 ≠ 0 then sc.1 else 1))),
     (DATA_ELEM_TYPE, pack_be32 et),
     (DATA_ELEM_COUNT, pack_be32 cnt)]
    CAL_DIM1_ORIGIN (E.elemEnc .float32 (-po.2 / (if sc.2 ≠ 0 then sc.2 else 1)))
    (by simp only [packsWF, ht, e4, and_true, CAL_DIM1_SCALE, CAL_DIM2_SCALE]
        omega)
    (by simp only [e4, ht, CAL_DIM1_ORIGIN]; omega)
    (by simp only [packsWF, ht, e4, pack_be32_length, and_true,
          CAL_DIM2_ORIGIN, DATA_ELEM_TYPE, DATA_ELEM_COUNT]
        omega)
    (by simp only [packsAvoid, e4, pack_be32_length, and_true,
          CAL_DIM1_ORIGIN, CAL_DIM2_ORIGIN, DATA_ELEM_TYPE, DATA_ELEM_COUNT]
        omega)
  rw [e4] at h5
  rw [patchPref_eq_packs]
  exact h5

theorem patchPref_slice_yorigin (E : NumEnc) (ref : List Nat) (sc po : ℚ × ℚ)
    (et cnt : Nat) (h : 152664 ≤ ref.length) :
    sliceAt (patchPref E ref sc po et cnt) CAL_DIM2_ORIGIN 4
      = E.elemEnc .float32 (-po.1 / (if sc.1 ≠ 0 then sc.1 else 1)) := by
  have e4 : ∀ q : ℚ, (E.elemEnc .float32 q).length = 4 :=
    fun q => E.elemEnc_len .float32 q
  have ht : (ref.take DATA_BODY).length = 152664 := by
    rw [List.length_take, DATA_BODY]; omega
  have h5 := packs_sliceAt_mem (ref.take DATA_BODY)
    [(CAL_DIM1_SCALE, E.elemEnc .float32 sc.2),
     (CAL_DIM2_SCALE, E.elemEnc .float32 sc.1),
     (CAL_DIM1_ORIGIN, E.elemEnc .float32 (-po.2 / (if sc.2 ≠ 0 then sc.2 else 1)))]
    [(DATA_ELEM_TYPE, pack_be32 et),
     (DATA_ELEM_COUNT, pack_be32 cnt)]
    CAL_DIM2_ORIGIN (E.elemEnc .float32 (-po.1 / (if sc.1 ≠ 0 then sc.1 else 1)))
    (by simp only [packsWF, ht, e4, and_true, CAL_DIM1_SCALE, CAL_DIM2_SCALE,
          CAL_DIM1_ORIGIN]
        omega)
    (by simp only [e4, ht, CAL_DIM2_ORIGIN]; omega)
    (by simp only [packsWF, ht, pack_be32_length, and_true,
          DATA_ELEM_TYPE, DATA_ELEM_COUNT]
        omega)
    (by simp only [packsAvoid, e4, pack_be32_length, and_true,
          CAL_DIM2_ORIGIN, DATA_ELEM_TYPE, DATA_ELEM_COUNT]
        omega)
  rw [e4] at h5
  rw [patchPref_eq_packs]
  exact h5

theorem patchPref_slice_elemtype (E : NumEnc) (ref : List Nat) (sc po : ℚ × ℚ)
    (et cnt : Nat) (h : 152664 ≤ ref.length) :
    sliceAt (patchPref E ref sc po et cnt) DATA_ELEM_TYPE 4 = pack_be32 et := by
  have e4 : ∀ q : ℚ, (E.elemEnc .float32 q).length = 4 :=
    fun q => E.elemEnc_len .float32 q
  have ht : (ref.take DATA_BODY).length = 152664 := by
    rw [List.length_take, DATA_BODY]; omega
  have h5 := packs_sliceAt_mem (ref.take DATA_BODY)
    [(CAL_DIM1_SCALE, E.elemEnc .float32 sc.2),
     (CAL_DIM2_SCALE, E.elemEnc .float32 sc.1),
     (CAL_DIM1_ORIGIN, E.elemEnc .float32 (-po.2 / (if sc.2 ≠ 0 then sc.2 else 1))),
     (CAL_DIM2_ORIGIN, E.elemEnc .float32 (-po.1 / (if sc.1 ≠ 0 then sc.1 else 1)))]
    [(DATA_ELEM_COUNT, pack_be32 cnt)]
    DATA_ELEM_TYPE (pack_be32 et)
    (by simp only [packsWF, ht, e4, and_true, CAL_DIM1_SCALE, CAL_DIM2_SCALE,
          CAL_DIM1_ORIGIN, CAL_DIM2_ORIGIN]
        omega)
    (by simp only [pack_be32_length, ht, DATA_ELEM_TYPE]; omega)
    (by simp only [packsWF, ht, pack_be32_length, and_true, DATA_ELEM_COUNT]
        omega)
    (by simp only [packsAvoid, pack_be32_length, and_true, DATA_ELEM_TYPE,
          DATA_ELEM_COUNT]
        omega)
  rw [pack_be32_length] at h5
  rw [patchPref_eq_packs]
  exact h5

theorem patchPref_slice_count (E : NumEnc) (ref : List Nat) (sc po : ℚ × ℚ)
    (et cnt : Nat) (h : 152664 ≤ ref.length) :
    sliceAt (patchPref E ref sc po et cnt) DATA_ELEM_COUNT 4 = pack_be32 cnt := by
  have e4 : ∀ q : ℚ, (E.elemEnc .float32 q).length = 4 :=
    fun q => E.elemEnc_len .float32 q
  have ht : (ref.take DATA_BODY).length = 152664 := by
    rw [List.length_take, DATA_BODY]; omega
  have h5 := packs_sliceAt_mem (ref.take DATA_BODY)
    [(CAL_DIM1_SCALE, E.elemEnc .float32 sc.2),
     (CAL_DIM2_SCALE, E.elemEnc .float32 sc.1),
     (CAL_DIM1_ORIGIN, E.elemEnc .float32 (-po.2 / (if sc.2 ≠ 0 then sc.2 else 1))),
     (CAL_DIM2_ORIGIN, E.elemEnc .float32 (-po.1 / (if sc.1 ≠ 0 then sc.1 else 1))),
     (DATA_ELEM_TYPE, pack_be32 et)]
    []
    DATA_ELEM_COUNT (pack_be32 cnt)
    (by simp only [packsWF, ht, e4, pack_be32_length, and_true, CAL_DIM1_SCALE,
          CAL_DIM2_SCALE, CAL_DIM1_ORIGIN, CAL_DIM2_ORIGIN, DATA_ELEM_TYPE]
        omega)
    (by simp only [pack_be32_length, ht, DATA_ELEM_COUNT]; omega)
    trivial
    trivial
  rw [pack_be32_length] at h5
  rw [patchPref_eq_packs]
  exact h5

/-! ## The patched suffix -/

/-- The four field writes of `patchSuff`, in execution order. -/
def suffFields (image_dtype nx ny pixel_depth : Nat) : List (Nat × List Nat) :=
  [(REL_DATATYPE, pack_le32 image_dtype),
   (REL_DIM_NX, pack_le32 nx),
   (REL_DIM_NY, pack_le32 ny),
   (REL_PIXELDEPTH, pack_le32 pixel_depth)]

theorem patchSuff_eq_packs (ref : List Nat) (idt nx ny pd : Nat) :
    patchSuff ref idt nx ny pd
      = packs (ref.drop SUFFIX_START) (suffFields idt nx ny pd) := rfl

/-- Membership in one of the four patched suffix fields (offsets
relative to the start of the suffix). -/
def inSuffFields (j : Nat) : Prop :=
  (REL_DATATYPE ≤ j ∧ j < REL_DATATYPE + 4) ∨
  (REL_DIM_NX ≤ j ∧ j < REL_DIM_NX + 4) ∨
  (REL_DIM_NY ≤ j ∧ j < REL_DIM_NY + 4) ∨
  (REL_PIXELDEPTH ≤ j ∧ j < REL_PIXELDEPTH + 4)

theorem patchSuff_length (ref : List Nat) (idt nx ny pd : Nat)
    (h : ref.length = 192708) :
    (patchSuff ref idt nx ny pd).length = 9768 := by
  have ht : (ref.drop SUFFIX_START).length = 9768 := by
    rw [List.length_drop, h]; rfl
  have ht2 : (List.drop (152664 + 7569 * 4) ref).length = 9768 := ht
  rw [patchSuff_eq_packs, packs_length, ht]
  simp only [suffFields, packsWF, ht, pack_le32_length, and_true,
    REL_DATATYPE, REL_DIM_NX, REL_DIM_NY, REL_PIXELDEPTH,
    SUFFIX_START, DATA_BODY, ORIG_DATA_BYTES]
  omega

theorem patchSuff_getElem?_out (ref : List Nat) (idt nx ny pd j : Nat)
    (h : ref.length = 192708) (hout : ¬ inSuffFields j) :
    (patchSuff ref idt nx ny pd)[j]? = ref[SUFFIX_START + j]? := by
  have ht : (ref.drop SUFFIX_START).length = 9768 := by
    rw [List.length_drop, h]; rfl
  have ht2 : (List.drop (152664 + 7569 * 4) ref).length = 9768 := ht
  simp only [inSuffFields, REL_DATATYPE, REL_DIM_NX, REL_DIM_NY,
    REL_PIXELDEPTH, SUFFIX_START, DATA_BODY, ORIG_DATA_BYTES] at hout
  have hw : packsWF (ref.drop SUFFIX_START).length (suffFields idt nx ny pd) := by
    simp only [suffFields, packsWF, ht, pack_le32_length, and_true,
      REL_DATATYPE, REL_DIM_NX, REL_DIM_NY, REL_PIXELDEPTH,
      SUFFIX_START, DATA_BODY, ORIG_DATA_BYTES]
    omega
  have hd : packsAvoid j 1 (suffFields idt nx ny pd) := by
    simp only [suffFields, packsAvoid, pack_le32_length, and_true,
      REL_DATATYPE, REL_DIM_NX, REL_DIM_NY, REL_PIXELDEPTH,
      SUFFIX_START, DATA_BODY, ORIG_DATA_BYTES]
    omega
  rw [patchSuff_eq_packs, packs_getElem?_out _ _ _ hw hd, List.getElem?_drop]

theorem patchSuff_slice_datatype (ref : List Nat) (idt nx ny pd : Nat)
    (h : ref.length = 192708) :
    sliceAt (patchSuff ref idt nx ny pd) REL_DATATYPE 4 = pack_le32 idt := by
  have ht : (ref.drop SUFFIX_START).length = 9768 := by
    rw [List.length_drop, h]; rfl
  have ht2 : (List.drop (152664 + 7569 * 4) ref).length = 9768 := ht
  have h5 := packs_sliceAt_mem (ref.drop SUFFIX_START) []
    [(REL_DIM_NX, pack_le32 nx),
     (REL_DIM_NY, pack_le32 ny),
     (REL_PIXELDEPTH, pack_le32 pd)]
    REL_DATATYPE (pack_le32 idt)
    trivial
    (by simp only [pack_le32_length, ht, REL_DATATYPE, SUFFIX_START,
          DATA_BODY, ORIG_DATA_BYTES]
        omega)
    (by simp only [packsWF, ht, pack_le32_length, and_true, REL_DIM_NX,
          REL_DIM_NY, REL_PIXELDEPTH, SUFFIX_START, DATA_BODY, ORIG_DATA_BYTES]
        omega)
    (by simp only [packsAvoid, pack_le32_length, and_true, REL_DATATYPE,
          REL_DIM_NX, REL_DIM_NY, REL_PIXELDEPTH, SUFFIX_START, DATA_BODY,
          ORIG_DATA_BYTES]
        omega)
  rw [pack_le32_length] at h5
  rw [patchSuff_eq_packs]
  exact h5

theorem patchSuff_slice_nx (ref : List Nat) (idt nx ny pd : Nat)
    (h : ref.length = 192708) :
    sliceAt (patchSuff ref idt nx ny pd) REL_DIM_NX 4 = pack_le32 nx := by
  have ht : (ref.drop SUFFIX_START).length = 9768 := by
    rw [List.length_drop, h]; rfl
  have ht2 : (List.drop (152664 + 7569 * 4) ref).length = 9768 := ht
  have h5 := packs_sliceAt_mem (ref.drop SUFFIX_START)
    [(REL_DATATYPE, pack_le32 idt)]
    [(REL_DIM_NY, pack_le32 ny),
     (REL_PIXELDEPTH, pack_le32 pd)]
    REL_DIM_NX (pack_le32 nx)
    (by simp only [packsWF, ht, pack_le32_length, and_true, REL_DATATYPE,
          SUFFIX_START, DATA_BODY, ORIG_DATA_BYTES]
        omega)
    (by simp only [pack_le32_length, ht, REL_DIM_NX, SUFFIX_START,
          DATA_BODY, ORIG_DATA_BYTES]
        omega)
    (by simp only [packsWF, ht, pack_le32_length, and_true, REL_DIM_NY,
          REL_PIXELDEPTH, SUFFIX_START, DATA_BODY, ORIG_DATA_BYTES]
        omega)
    (by simp only [packsAvoid, pack_le32_length, and_true, REL_DIM_NX,
          REL_DIM_NY, REL_PIXELDEPTH, SUFFIX_START, DATA_BODY, ORIG_DATA_BYTES]
        omega)
  rw [pack_le32_length] at h5
  rw [patchSuff_eq_packs]
  exact h5

theorem patchSuff_slice_ny (ref : List Nat) (idt nx ny pd : Nat)
    (h : ref.length = 192708) :
    sliceAt (patchSuff ref idt nx ny pd) REL_DIM_NY 4 = pack_le32 ny := by
  have ht : (ref.drop SUFFIX_START).length = 9768 := by
    rw [List.length_drop, h]; rfl
  have ht2 : (List.drop (152664 + 7569 * 4) ref).length = 9768 := ht
  have h5 := packs_sliceAt_mem (ref.drop SUFFIX_START)
    [(REL_DATATYPE, pack_le32 idt),
     (REL_DIM_NX, pack_le32 nx)]
    [(REL_PIXELDEPTH, pack_le32 pd)]
    REL_DIM_NY (pack_le32 ny)
    (by simp only [packsWF, ht, pack_le32_length, and_true, REL_DATATYPE,
          REL_DIM_NX, SUFFIX_START, DATA_BODY, ORIG_DATA_BYTES]
        omega)
    (by simp only [pack_le32_length, ht, REL_DIM_NY, SUFFIX_START,
          DATA_BODY, ORIG_DATA_BYTES]
        omega)
    (by simp only [packsWF, ht, pack_le32_length, and_true, REL_PIXELDEPTH,
          SUFFIX_START, DATA_BODY, ORIG_DATA_BYTES]
        omega)
    (by simp only [packsAvoid, pack_le32_length, and_true, REL_DIM_NY,
          REL_PIXELDEPTH, SUFFIX_START, DATA_BODY, ORIG_DATA_BYTES]
        omega)
  rw [pack_le32_length] at h5
  rw [patchSuff_eq_packs]
  exact h5

theorem patchSuff_slice_depth (ref : List Nat) (idt nx ny pd : Nat)
    (h : ref.length = 192708) :
    sliceAt (patchSuff ref idt nx ny pd) REL_PIXELDEPTH 4 = pack_le32 pd := by
  have ht : (ref.drop SUFFIX_START).length = 9768 := by
    rw [List.length_drop, h]; rfl
  have ht2 : (List.drop (152664 + 7569 * 4) ref).length = 9768 := ht
  have h5 := packs_sliceAt_mem (ref.drop SUFFIX_START)
    [(REL_DATATYPE, pack_le32 idt),
     (REL_DIM_NX, pack_le32 nx),
     (REL_DIM_NY, pack_le32 ny)]
    []
    REL_PIXELDEPTH (pack_le32 pd)
    (by simp only [packsWF, ht, pack_le32_length, and_true, REL_DATATYPE,
          REL_DIM_NX, REL_DIM_NY, SUFFIX_START, DATA_BODY, ORIG_DATA_BYTES]
        omega)
    (by simp only [pack_le32_length, ht, REL_PIXELDEPTH, SUFFIX_START,
          DATA_BODY, ORIG_DATA_BYTES]
        omega)
    trivial
    trivial
  rw [pack_le32_length] at h5
  rw [patchSuff_eq_packs]
  exact h5

/-! ## Coercion lemmas -/

theorem coerceArray_shape (E : NumEnc) (a : NDArray) :
    (coerceArray E a).shape = a.shape := by
  unfold coerceArray
  by_cases h1 : a.dtype = .float64
  · simp [h1, astype]
  · by_cases h2 : a.dtype = .int64
    · simp [h1, h2, astype]
    · by_cases h3 : a.dtype = .uint64
      · simp [h1, h2, h3, astype]
      · by_cases h4 : arrayTypeCode a.dtype = none
        · simp [h1, h2, h3, h4, astype]
        · simp [h1, h2, h3, h4]

theorem coerceArray_dtype (E : NumEnc) (a : NDArray) :
    (coerceArray E a).dtype = coerceDType a.dtype := by
  unfold coerceArray coerceDType
  by_cases h1 : a.dtype = .float64
  · simp [h1, astype]
  · by_cases h2 : a.dtype = .int64
    · simp [h1, h2, astype]
    · by_cases h3 : a.dtype = .uint64
      · simp [h1, h2, h3, astype]
      · by_cases h4 : arrayTypeCode a.dtype = none
        · simp [h1, h2, h3, h4, astype]
        · simp [h1, h2, h3, h4]

theorem coerceArray_data_length (E : NumEnc) (a : NDArray) :
    (coerceArray E a).data.length = a.data.length := by
  rw [(coerceArray E a).hlen, coerceArray_shape, a.hlen]

/-- Storage type code after coercion (the value `_ARRAY_TYPES[dtype]`
looked up on line 106 of the source, always present after coercion). -/
def elemTypeOf (d : DType) : Nat := (arrayTypeCode (coerceDType d)).getD 0

/-- Display type code after coercion (the value `_IMAGE_DTYPES[dtype]`
looked up on line 107 of the source, always present after coercion). -/
def imageDtypeOf (d : DType) : Nat := (imageDtypeCode (coerceDType d)).getD 0

theorem arrayTypeCode_coerceDType (d : DType) :
    arrayTypeCode (coerceDType d) = some (elemTypeOf d) := by
  cases d <;> rfl

theorem imageDtypeCode_coerceDType (d : DType) :
    imageDtypeCode (coerceDType d) = some (imageDtypeOf d) := by
  cases d <;> rfl

/-! ## Reduction of `write_dm` -/

theorem write_dm_version_ne (E : NumEnc) (ref : List Nat) (a : NDArray)
    (ps po : Option (ℚ × ℚ)) (v : ℤ) (hv : v ≠ 3) :
    write_dm E ref a ps po v = .error .unsupportedVersion := by
  unfold write_dm
  rw [if_pos hv]

theorem write_dm_shape_ne (E : NumEnc) (ref : List Nat) (a : NDArray)
    (ps po : Option (ℚ × ℚ)) (h : a.ndim ≠ 2) :
    write_dm E ref a ps po 3 = .error .shapeError := by
  unfold write_dm
  rw [if_neg (by decide), if_pos h]

theorem write_dm_ok (E : NumEnc) (ref : List Nat) (a : NDArray)
    (ps po : Option (ℚ × ℚ)) (ny nx : Nat) (hshape : a.shape = [ny, nx]) :
    write_dm E ref a ps po 3 =
      .ok (assemble E ref (coerceArray E a) (ps.getD (1, 1)) (po.getD (0, 0))
        ny nx (elemTypeOf a.dtype) (imageDtypeOf a.dtype)) := by
  have h1 : (coerceArray E a).shape = [ny, nx] := by
    rw [coerceArray_shape, hshape]
  have h2 : arrayTypeCode (coerceArray E a).dtype = some (elemTypeOf a.dtype) := by
    rw [coerceArray_dtype, arrayTypeCode_coerceDType]
  have h3 : imageDtypeCode (coerceArray E a).dtype = some (imageDtypeOf a.dtype) := by
    rw [coerceArray_dtype, imageDtypeCode_coerceDType]
  unfold write_dm
  rw [if_neg (by decide), if_neg (by simp [NDArray.ndim, hshape])]
  simp only [h1, h2, h3]

/-! ## Payload length -/

theorem flatten_map_length_const {α : Type} (f : α → List Nat) (c : Nat)
    (h : ∀ x, (f x).length = c) :
    ∀ l : List α, ((l.map f).flatten).length = l.length * c
  | [] => by simp
  | x :: t => by
    simp only [List.map_cons, List.flatten_cons, List.length_append,
      List.length_cons, h x, flatten_map_length_const f c h t]
    ring

theorem tobytes_length (E : NumEnc) (a : NDArray) :
    (tobytes E a).length = a.data.length * a.dtype.itemsize := by
  unfold tobytes
  exact flatten_map_length_const _ _ (fun q => E.elemEnc_len a.dtype q) a.data

/-! ## Reading packed fields back -/

theorem read_be32_pack (l : List Nat) (off v : Nat)
    (h : sliceAt l off 4 = pack_be32 v) (hv : v < 4294967296) :
    read_be32 l off = v := by
  have b0 : byteAt l (off + 0) = v / 16777216 % 256 :=
    byteAt_of_slice l off 4 _ h 0 (by omega)
  have b1 : byteAt l (off + 1) = v / 65536 % 256 :=
    byteAt_of_slice l off 4 _ h 1 (by omega)
  have b2 : byteAt l (off + 2) = v / 256 % 256 :=
    byteAt_of_slice l off 4 _ h 2 (by omega)
  have b3 : byteAt l (off + 3) = v % 256 :=
    byteAt_of_slice l off 4 _ h 3 (by omega)
  rw [Nat.add_zero] at b0
  unfold read_be32
  rw [b0, b1, b2, b3]
  omega

theorem read_le32_pack (l : List Nat) (off v : Nat)
    (h : sliceAt l off 4 = pack_le32 v) (hv : v < 4294967296) :
    read_le32 l off = v := by
  have b0 : byteAt l (off + 0) = v % 256 :=
    byteAt_of_slice l off 4 _ h 0 (by omega)
  have b1 : byteAt l (off + 1) = v / 256 % 256 :=
    byteAt_of_slice l off 4 _ h 1 (by omega)
  have b2 : byteAt l (off + 2) = v / 65536 % 256 :=
    byteAt_of_slice l off 4 _ h 2 (by omega)
  have b3 : byteAt l (off + 3) = v / 16777216 % 256 :=
    byteAt_of_slice l off 4 _ h 3 (by omega)
  rw [Nat.add_zero] at b0
  unfold read_le32
  rw [b0, b1, b2, b3]
  omega

/-! ## Lemmas about `assemble` -/

theorem assemble_parts_length (E : NumEnc) (ref : List Nat) (data : NDArray)
    (sc po : ℚ × ℚ) (ny nx et idt : Nat)
    (href : ref.length = 192708) (hdl : data.data.length = ny * nx) :
    (patchPref E ref sc po et (nx * ny) ++
      (tobytes E data ++ patchSuff ref idt nx ny data.dtype.itemsize)).length
      = 152664 + ny * nx * data.dtype.itemsize + 9768 := by
  rw [List.length_append, List.length_append,
    patchPref_length E ref sc po et (nx * ny) (by omega),
    patchSuff_length ref idt nx ny data.dtype.itemsize href,
    tobytes_length, hdl]
  ring

theorem assemble_length (E : NumEnc) (ref : List Nat) (data : NDArray)
    (sc po : ℚ × ℚ) (ny nx et idt : Nat)
    (href : ref.length = 192708) (hdl : data.data.length = ny * nx) :
    (assemble E ref data sc po ny nx et idt).length
      = 162432 + ny * nx * data.dtype.itemsize := by
  have hR := assemble_parts_length E ref data sc po ny nx et idt href hdl
  simp only [assemble]
  rw [pack_into_length _ _ _ (by rw [pack_be32_length, hR]; omega), hR]
  omega

theorem assemble_slice_header (E : NumEnc) (ref : List Nat) (data : NDArray)
    (sc po : ℚ × ℚ) (ny nx et idt : Nat)
    (href : ref.length = 192708) (hdl : data.data.length = ny * nx) :
    sliceAt (assemble E ref data sc po ny nx et idt) 4 4
      = pack_be32 (162412 + ny * nx * data.dtype.itemsize) := by
  have hR := assemble_parts_length E ref data sc po ny nx et idt href hdl
  simp only [assemble]
  have h20 : (patchPref E ref sc po et (nx * ny) ++
      (tobytes E data ++ patchSuff ref idt nx ny data.dtype.itemsize)).length - 20
      = 162412 + ny * nx * data.dtype.itemsize := by
    rw [hR]; omega
  rw [h20]
  exact sliceAt_pack_into_self _ _ _ (by rw [pack_be32_length, hR]; omega)

theorem assemble_sliceAt_pref (E : NumEnc) (ref : List Nat) (data : NDArray)
    (sc po : ℚ × ℚ) (ny nx et idt off len : Nat)
    (href : ref.length = 192708) (hdl : data.data.length = ny * nx)
    (hoff : 8 ≤ off) (hend : off + len ≤ 152664) :
    sliceAt (assemble E ref data sc po ny nx et idt) off len
      = sliceAt (patchPref E ref sc po et (nx * ny)) off len := by
  have hR := assemble_parts_length E ref data sc po ny nx et idt href hdl
  have hP : (patchPref E ref sc po et (nx * ny)).length = 152664 :=
    patchPref_length E ref sc po et (nx * ny) (by omega)
  simp only [assemble]
  rw [sliceAt_pack_into_out _ _ _ _ _ (by rw [pack_be32_length, hR]; omega)
    (by rw [pack_be32_length]; omega)]
  exact sliceAt_append_left _ _ _ _ (by rw [hP]; omega)

theorem assemble_sliceAt_suff (E : NumEnc) (ref : List Nat) (data : NDArray)
    (sc po : ℚ × ℚ) (ny nx et idt r len : Nat)
    (href : ref.length = 192708) (hdl : data.data.length = ny * nx) :
    sliceAt (assemble E ref data sc po ny nx et idt)
        (152664 + ny * nx * data.dtype.itemsize + r) len
      = sliceAt (patchSuff ref idt nx ny data.dtype.itemsize) r len := by
  have hR := assemble_parts_length E ref data sc po ny nx et idt href hdl
  have hP : (patchPref E ref sc po et (nx * ny)).length = 152664 :=
    patchPref_length E ref sc po et (nx * ny) (by omega)
  have hT : (tobytes E data).length = ny * nx * data.dtype.itemsize := by
    rw [tobytes_length, hdl]
  simp only [assemble]
  rw [sliceAt_pack_into_out _ _ _ _ _ (by rw [pack_be32_length, hR]; omega)
    (by rw [pack_be32_length]; omega)]
  rw [show 152664 + ny * nx * data.dtype.itemsize + r
      = (patchPref E ref sc po et (nx * ny)).length
        + (ny * nx * data.dtype.itemsize + r) from by rw [hP]; omega]
  rw [sliceAt_append_right]
  rw [show ny * nx * data.dtype.itemsize + r
      = (tobytes E data).length + r from by rw [hT]]
  rw [sliceAt_append_right]

theorem assemble_slice_payload (E : NumEnc) (ref : List Nat) (data : NDArray)
    (sc po : ℚ × ℚ) (ny nx et idt : Nat)
    (href : ref.length = 192708) (hdl : data.data.length = ny * nx) :
    sliceAt (assemble E ref data sc po ny nx et idt) 152664
        (ny * nx * data.dtype.itemsize)
      = tobytes E data := by
  have hR := assemble_parts_length E ref data sc po ny nx et idt href hdl
  have hP : (patchPref E ref sc po et (nx * ny)).length = 152664 :=
    patchPref_length E ref sc po et (nx * ny) (by omega)
  have hT : (tobytes E data).length = ny * nx * data.dtype.itemsize := by
    rw [tobytes_length, hdl]
  simp only [assemble]
  rw [sliceAt_pack_into_out _ _ _ _ _ (by rw [pack_be32_length, hR]; omega)
    (by rw [pack_be32_length]; omega)]
  rw [show (152664 : Nat)
      = (patchPref E ref sc po et (nx * ny)).length + 0 from by rw [hP]]
  rw [sliceAt_append_right]
  rw [show ny * nx * data.dtype.itemsize
      = (tobytes E data).length from hT.symm]
  unfold sliceAt
  rw [List.drop_zero, List.take_left]

theorem assemble_getElem?_pref (E : NumEnc) (ref : List Nat) (data : NDArray)
    (sc po : ℚ × ℚ) (ny nx et idt i : Nat)
    (href : ref.length = 192708) (hdl : data.data.length = ny * nx)
    (hi : i < 152664) (hhdr : i < 4 ∨ 8 ≤ i) (hout : ¬ inPrefFields i) :
    (assemble E ref data sc po ny nx et idt)[i]? = ref[i]? := by
  have hR := assemble_parts_length E ref data sc po ny nx et idt href hdl
  have hP : (patchPref E ref sc po et (nx * ny)).length = 152664 :=
    patchPref_length E ref sc po et (nx * ny) (by omega)
  simp only [assemble]
  rw [pack_into_getElem?_out _ _ _ _ (by rw [pack_be32_length, hR]; omega)
    (by rw [pack_be32_length]; omega)]
  rw [List.getElem?_append_left (by rw [hP]; omega)]
  exact patchPref_getElem?_out E ref sc po et (nx * ny) i (by omega) hi hout

theorem assemble_getElem?_suff (E : NumEnc) (ref : List Nat) (data : NDArray)
    (sc po : ℚ × ℚ) (ny nx et idt j : Nat)
    (href : ref.length = 192708) (hdl : data.data.length = ny * nx)
    (hout : ¬ inSuffFields j) :
    (assemble E ref data sc po ny nx et idt)[152664 + ny * nx * data.dtype.itemsize + j]? = ref[SUFFIX_START + j]? := by
  have hR := assemble_parts_length E ref data sc po ny nx et idt href hdl
  have hP : (patchPref E ref sc po et (nx * ny)).length = 152664 :=
    patchPref_length E ref sc po et (nx * ny) (by omega)
  have hT : (tobytes E data).length = ny * nx * data.dtype.itemsize := by
    rw [tobytes_length, hdl]
  simp only [assemble]
  rw [pack_into_getElem?_out _ _ _ _ (by rw [pack_be32_length, hR]; omega)
    (by rw [pack_be32_length]; omega)]
  rw [List.getElem?_append_right (by rw [hP]; omega), hP]
  have e1 : 152664 + ny * nx * data.dtype.itemsize + j - 152664
      = ny * nx * data.dtype.itemsize + j := by omega
  rw [e1]
  rw [List.getElem?_append_right (by rw [hT]; omega), hT]
  have e2 : ny * nx * data.dtype.itemsize + j - ny * nx * data.dtype.itemsize
      = j := by omega
  rw [e2]
  exact patchSuff_getElem?_out ref idt nx ny data.dtype.itemsize j href hout

/-! ## Concrete inputs used by the witnesses -/

/-- Stand-in reference template bytes of the correct length (claims
proved here hold for every byte content of the template). -/
def refW : List Nat := List.replicate 192708 0

theorem refW_length : refW.length = 192708 := List.length_replicate 192708 0

/-- A 1x1 int32 array. -/
def arr11i32 : NDArray := ⟨[1, 1], .int32, [0], by simp⟩

/-- The 4x4 int32 array with values 0..15 row-major (claim C7). -/
def arr44i32 : NDArray :=
  ⟨[4, 4], .int32,
    [0, 1, 2, 3, 4, 5, 6, 7, 8, 9, 10, 11, 12, 13, 14, 15], rfl⟩

/-- A 4x4 float64 array (claim C5). -/
def arr44f64 : NDArray := ⟨[4, 4], .float64, List.replicate 16 0, by simp⟩

/-- A 3-D array (claim C6). -/
def arr222i32 : NDArray := ⟨[2, 2, 2], .int32, List.replicate 8 0, by simp⟩

/-- A 2x3 int8 array (claim C10). -/
def arr23i8 : NDArray := ⟨[2, 3], .int8, List.replicate 6 0, by simp⟩

/-- A 2x3 uint8 array (claim C10). -/
def arr23u8 : NDArray := ⟨[2, 3], .uint8, List.replicate 6 0, by simp⟩

/-! ## Shared helper lemmas for the claims -/

theorem coerce_hdl (E : NumEnc) (a : NDArray) (ny nx : Nat)
    (h : a.shape = [ny, nx]) : (coerceArray E a).data.length = ny * nx := by
  rw [coerceArray_data_length, a.hlen, h]
  simp

theorem coerceDType_itemsize_cases (d : DType) :
    (coerceDType d).itemsize = 1 ∨ (coerceDType d).itemsize = 2 ∨
      (coerceDType d).itemsize = 4 := by
  cases d <;> simp [coerceDType, DType.itemsize, arrayTypeCode]

theorem elemTypeOf_ne_seven (d : DType) : elemTypeOf d ≠ 7 := by
  cases d <;> simp [elemTypeOf, coerceDType, arrayTypeCode]

theorem imageDtypeOf_ne_twelve (d : DType) : imageDtypeOf d ≠ 12 := by
  cases d <;> simp [imageDtypeOf, coerceDType, arrayTypeCode, imageDtypeCode]

/-! ## Claims -/

/-- C6: `write_dm` rejects any version other than 3 with the
`UnsupportedVersion` error (checked first), and rejects a non-2-D
array (judged on the original input's `ndim`, before any coercion)
with the `ShapeError` error when the version is 3; in both cases the
result is the same for every reference template (`∀ ref2`), reflecting
that the failure occurs before the template is read and before any
output bytes are produced. -/
theorem C6_validation_errors (E : NumEnc) (a : NDArray)
    (ps po : Option (ℚ × ℚ)) (version : ℤ) :
    (version ≠ 3 →
      ∀ ref2, write_dm E ref2 a ps po version = .error .unsupportedVersion) ∧
    (a.ndim ≠ 2 →
      ∀ ref2, write_dm E ref2 a ps po 3 = .error .shapeError) := by
  constructor
  · intro hv ref2
    exact write_dm_version_ne E ref2 a ps po version hv
  · intro hs ref2
    exact write_dm_shape_ne E ref2 a ps po hs

theorem C6_validation_errors_witness :
    write_dm zeroEnc refW arr222i32 none none 4 = .error .unsupportedVersion ∧
    write_dm zeroEnc refW arr222i32 none none 3 = .error .shapeError :=
  ⟨(C6_validation_errors zeroEnc arr222i32 none none 4).1 (by decide) refW,
   (C6_validation_errors zeroEnc arr222i32 none none 4).2 (by decide) refW⟩

/-- C8: `write_dm` is deterministic — the produced bytes are a pure
function of the template bytes, the array (contents, dtype, shape),
the calibration options and the version; two invocations with equal
inputs give equal results. -/
theorem C8_deterministic (E : NumEnc) (ref1 ref2 : List Nat) (a1 a2 : NDArray)
    (ps1 ps2 po1 po2 : Option (ℚ × ℚ)) (v1 v2 : ℤ)
    (hr : ref1 = ref2) (ha : a1 = a2) (hps : ps1 = ps2) (hpo : po1 = po2)
    (hv : v1 = v2) :
    write_dm E ref1 a1 ps1 po1 v1 = write_dm E ref2 a2 ps2 po2 v2 := by
  subst hr
  subst ha
  subst hps
  subst hpo
  subst hv
  rfl

theorem C8_deterministic_witness :
    write_dm zeroEnc refW arr11i32 none none 3
      = write_dm zeroEnc refW arr11i32 none none 3 :=
  C8_deterministic zeroEnc refW refW arr11i32 arr11i32 none none none none 3 3
    rfl rfl rfl rfl rfl

/-- C1: for every accepted input (2-D array of any dtype, any
calibration, version 3, the 192708-byte reference), `write_dm`
succeeds and every byte of the output outside the rewritten fields is
byte-identical to the corresponding reference byte: each prefix byte
below `DATA_BODY` outside the 4-byte header length field and the six
patched prefix fields equals the template byte at the same index, and
each suffix byte (at `DATA_BODY + payload length + j`) outside the
four patched relative fields equals the template byte at
`SUFFIX_START + j`.  The payload region `[DATA_BODY, DATA_BODY +
ny*nx*width)` is exactly the region between the two. -/
theorem C1_frame_bytes (E : NumEnc) (ref : List Nat) (a : NDArray)
    (ps po : Option (ℚ × ℚ)) (ny nx : Nat)
    (href : ref.length = 192708) (hshape : a.shape = [ny, nx]) :
    ∃ out, write_dm E ref a ps po 3 = .ok out ∧
      (∀ i, i < DATA_BODY → ¬ (4 ≤ i ∧ i < 8) → ¬ inPrefFields i →
        out[i]? = ref[i]?) ∧
      (∀ j, ¬ inSuffFields j →
        out[DATA_BODY + ny * nx * (coerceDType a.dtype).itemsize + j]?
          = ref[SUFFIX_START + j]?) := by
  have hdl : (coerceArray E a).data.length = ny * nx := coerce_hdl E a ny nx hshape
  refine ⟨_, write_dm_ok E ref a ps po ny nx hshape, ?_, ?_⟩
  · intro i hi hhdr hout
    exact assemble_getElem?_pref E ref (coerceArray E a) (ps.getD (1, 1))
      (po.getD (0, 0)) ny nx (elemTypeOf a.dtype) (imageDtypeOf a.dtype) i
      href hdl hi (by omega) hout
  · intro j hout
    have h := assemble_getElem?_suff E ref (coerceArray E a) (ps.getD (1, 1))
      (po.getD (0, 0)) ny nx (elemTypeOf a.dtype) (imageDtypeOf a.dtype) j
      href hdl hout
    rw [coerceArray_dtype] at h
    exact h

theorem C1_frame_bytes_witness :
    refW.length = 192708 ∧ arr11i32.shape = [1, 1] ∧
    (∃ out, write_dm zeroEnc refW arr11i32 none none 3 = .ok out ∧
      (∀ i, i < DATA_BODY → ¬ (4 ≤ i ∧ i < 8) → ¬ inPrefFields i →
        out[i]? = refW[i]?) ∧
      (∀ j, ¬ inSuffFields j →
        out[DATA_BODY + 1 * 1 * (coerceDType arr11i32.dtype).itemsize + j]?
          = refW[SUFFIX_START + j]?)) :=
  ⟨refW_length, rfl,
   C1_frame_bytes zeroEnc refW arr11i32 none none 1 1 refW_length rfl⟩

/-- C2: for every accepted input (any dtype, any ny, nx ≥ 0 whose
total size keeps the length field in `>I` range — larger inputs make
the Python `struct.pack_into` raise, so they are not accepted), the 4
bytes at absolute offset 4 of the output, read as a big-endian
unsigned 32-bit integer, equal the total output length minus 20. -/
theorem C2_header_length_field (E : NumEnc) (ref : List Nat) (a : NDArray)
    (ps po : Option (ℚ × ℚ)) (ny nx : Nat)
    (href : ref.length = 192708) (hshape : a.shape = [ny, nx])
    (hsize : ny * nx * (coerceDType a.dtype).itemsize + 162412 < 4294967296) :
    ∃ out, write_dm E ref a ps po 3 = .ok out ∧
      read_be32 out 4 = out.length - 20 := by
  have hdl := coerce_hdl E a ny nx hshape
  refine ⟨_, write_dm_ok E ref a ps po ny nx hshape, ?_⟩
  have hs := assemble_slice_header E ref (coerceArray E a) (ps.getD (1, 1))
    (po.getD (0, 0)) ny nx (elemTypeOf a.dtype) (imageDtypeOf a.dtype) href hdl
  have hl := assemble_length E ref (coerceArray E a) (ps.getD (1, 1))
    (po.getD (0, 0)) ny nx (elemTypeOf a.dtype) (imageDtypeOf a.dtype) href hdl
  rw [hl]
  have e1 : 162432 + ny * nx * (coerceArray E a).dtype.itemsize - 20
      = 162412 + ny * nx * (coerceArray E a).dtype.itemsize := by omega
  rw [e1]
  refine read_be32_pack _ _ _ hs ?_
  rw [coerceArray_dtype]
  omega

theorem C2_header_length_field_witness :
    refW.length = 192708 ∧ arr11i32.shape = [1, 1] ∧
    1 * 1 * (coerceDType arr11i32.dtype).itemsize + 162412 < 4294967296 ∧
    (∃ out, write_dm zeroEnc refW arr11i32 none none 3 = .ok out ∧
      read_be32 out 4 = out.length - 20) :=
  ⟨refW_length, rfl, by decide,
   C2_header_length_field zeroEnc refW arr11i32 none none 1 1 refW_length rfl
     (by decide)⟩

/-- C3: for an axis calibration with scale exactly 0 and offset o, the
scale written to that axis's scale field is the given 0 (not the 1.0
substituted for the division), and the origin written is
-o / 1 = -o — the division is performed with 1.0 substituted for the
zero scale, so it never divides by zero.  Stated for both axes
(DIM1 = x = column axis, fed from the second tuple component;
DIM2 = y = row axis, fed from the first). -/
theorem C3_zero_scale_calibration (E : NumEnc) (ref : List Nat) (a : NDArray)
    (ny nx : Nat) (sy sx oy ox : ℚ)
    (href : ref.length = 192708) (hshape : a.shape = [ny, nx]) :
    ∃ out, write_dm E ref a (some (sy, sx)) (some (oy, ox)) 3 = .ok out ∧
      (sx = 0 →
        sliceAt out CAL_DIM1_SCALE 4 = E.elemEnc .float32 0 ∧
        sliceAt out CAL_DIM1_ORIGIN 4 = E.elemEnc .float32 (-ox)) ∧
      (sy = 0 →
        sliceAt out CAL_DIM2_SCALE 4 = E.elemEnc .float32 0 ∧
        sliceAt out CAL_DIM2_ORIGIN 4 = E.elemEnc .float32 (-oy)) := by
  have hdl := coerce_hdl E a ny nx hshape
  refine ⟨_, write_dm_ok E ref a (some (sy, sx)) (some (oy, ox)) ny nx hshape,
    ?_, ?_⟩
  · intro h0
    subst h0
    constructor
    · rw [assemble_sliceAt_pref E ref (coerceArray E a) _ _ ny nx _ _
        CAL_DIM1_SCALE 4 href hdl (by decide) (by decide),
        patchPref_slice_xscale E ref _ _ _ _ (by omega)]
      rfl
    · rw [assemble_sliceAt_pref E ref (coerceArray E a) _ _ ny nx _ _
        CAL_DIM1_ORIGIN 4 href hdl (by decide) (by decide),
        patchPref_slice_xorigin E ref _ _ _ _ (by omega)]
      show E.elemEnc .float32 (-ox / (if (0 : ℚ) ≠ 0 then (0 : ℚ) else 1))
        = E.elemEnc .float32 (-ox)
      rw [if_neg (by simp), div_one]
  · intro h0
    subst h0
    constructor
    · rw [assemble_sliceAt_pref E ref (coerceArray E a) _ _ ny nx _ _
        CAL_DIM2_SCALE 4 href hdl (by decide) (by decide),
        patchPref_slice_yscale E ref _ _ _ _ (by omega)]
      rfl
    · rw [assemble_sliceAt_pref E ref (coerceArray E a) _ _ ny nx _ _
        CAL_DIM2_ORIGIN 4 href hdl (by decide) (by decide),
        patchPref_slice_yorigin E ref _ _ _ _ (by omega)]
      show E.elemEnc .float32 (-oy / (if (0 : ℚ) ≠ 0 then (0 : ℚ) else 1))
        = E.elemEnc .float32 (-oy)
      rw [if_neg (by simp), div_one]

theorem C3_zero_scale_calibration_witness :
    refW.length = 192708 ∧ arr11i32.shape = [1, 1] ∧
    (∃ out, write_dm zeroEnc refW arr11i32 (some (0, 0)) (some (2, 3)) 3
        = .ok out ∧
      ((0 : ℚ) = 0 →
        sliceAt out CAL_DIM1_SCALE 4 = zeroEnc.elemEnc .float32 0 ∧
        sliceAt out CAL_DIM1_ORIGIN 4 = zeroEnc.elemEnc .float32 (-3)) ∧
      ((0 : ℚ) = 0 →
        sliceAt out CAL_DIM2_SCALE 4 = zeroEnc.elemEnc .float32 0 ∧
        sliceAt out CAL_DIM2_ORIGIN 4 = zeroEnc.elemEnc .float32 (-2))) :=
  ⟨refW_length, rfl,
   C3_zero_scale_calibration zeroEnc refW arr11i32 1 1 0 0 2 3 refW_length rfl⟩

/-- C4: for an axis calibration with scale s ≠ 0 and offset o, the
bytes written to that axis's scale field are the float32 encoding of
s itself and the bytes written to its origin field are the float32
encoding of -o / s, so reading the documented offsets back through
the encoding recovers scale = s and origin = -o / s.  Stated for both
axes. -/
theorem C4_calibration_roundtrip (E : NumEnc) (ref : List Nat) (a : NDArray)
    (ny nx : Nat) (sy sx oy ox : ℚ)
    (href : ref.length = 192708) (hshape : a.shape = [ny, nx]) :
    ∃ out, write_dm E ref a (some (sy, sx)) (some (oy, ox)) 3 = .ok out ∧
      (sx ≠ 0 →
        sliceAt out CAL_DIM1_SCALE 4 = E.elemEnc .float32 sx ∧
        sliceAt out CAL_DIM1_ORIGIN 4 = E.elemEnc .float32 (-ox / sx)) ∧
      (sy ≠ 0 →
        sliceAt out CAL_DIM2_SCALE 4 = E.elemEnc .float32 sy ∧
        sliceAt out CAL_DIM2_ORIGIN 4 = E.elemEnc .float32 (-oy / sy)) := by
  have hdl := coerce_hdl E a ny nx hshape
  refine ⟨_, write_dm_ok E ref a (some (sy, sx)) (some (oy, ox)) ny nx hshape,
    ?_, ?_⟩
  · intro h0
    constructor
    · rw [assemble_sliceAt_pref E ref (coerceArray E a) _ _ ny nx _ _
        CAL_DIM1_SCALE 4 href hdl (by decide) (by decide),
        patchPref_slice_xscale E ref _ _ _ _ (by omega)]
      rfl
    · rw [assemble_sliceAt_pref E ref (coerceArray E a) _ _ ny nx _ _
        CAL_DIM1_ORIGIN 4 href hdl (by decide) (by decide),
        patchPref_slice_xorigin E ref _ _ _ _ (by omega)]
      show E.elemEnc .float32 (-ox / (if sx ≠ 0 then sx else 1))
        = E.elemEnc .float32 (-ox / sx)
      rw [if_pos h0]
  · intro h0
    constructor
    · rw [assemble_sliceAt_pref E ref (coerceArray E a) _ _ ny nx _ _
        CAL_DIM2_SCALE 4 href hdl (by decide) (by decide),
        patchPref_slice_yscale E ref _ _ _ _ (by omega)]
      rfl
    · rw [assemble_sliceAt_pref E ref (coerceArray E a) _ _ ny nx _ _
        CAL_DIM2_ORIGIN 4 href hdl (by decide) (by decide),
        patchPref_slice_yorigin E ref _ _ _ _ (by omega)]
      show E.elemEnc .float32 (-oy / (if sy ≠ 0 then sy else 1))
        = E.elemEnc .float32 (-oy / sy)
      rw [if_pos h0]

theorem C4_calibration_roundtrip_witness :
    refW.length = 192708 ∧ arr11i32.shape = [1, 1] ∧
    (∃ out, write_dm zeroEnc refW arr11i32 (some (2, 4)) (some (1, 3)) 3
        = .ok out ∧
      ((4 : ℚ) ≠ 0 →
        sliceAt out CAL_DIM1_SCALE 4 = zeroEnc.elemEnc .float32 4 ∧
        sliceAt out CAL_DIM1_ORIGIN 4 = zeroEnc.elemEnc .float32 (-3 / 4)) ∧
      ((2 : ℚ) ≠ 0 →
        sliceAt out CAL_DIM2_SCALE 4 = zeroEnc.elemEnc .float32 2 ∧
        sliceAt out CAL_DIM2_ORIGIN 4 = zeroEnc.elemEnc .float32 (-1 / 2))) :=
  ⟨refW_length, rfl,
   C4_calibration_roundtrip zeroEnc refW arr11i32 1 1 2 4 1 3 refW_length rfl⟩

/-- C5: the dtype coercion rules of `write_dm`, applied in order:
float64 → float32, int64 → int32, uint64 → uint32, any other dtype
missing from `_ARRAY_TYPES` → float32, every remaining (supported)
dtype kept; and the concrete consequence that a (4,4) float64 array
yields the float32 storage code 6 and display code 2 and a payload of
exactly 64 bytes (output length = reference length − 30276 + 64). -/
theorem C5_dtype_coercion (E : NumEnc) (ref : List Nat) (a : NDArray)
    (ps po : Option (ℚ × ℚ)) (href : ref.length = 192708)
    (hshape : a.shape = [4, 4]) (hdt : a.dtype = .float64) :
    coerceDType .float64 = .float32 ∧
    coerceDType .int64 = .int32 ∧
    coerceDType .uint64 = .uint32 ∧
    (∀ w, arrayTypeCode (.other w) = none ∧ coerceDType (.other w) = .float32) ∧
    (∀ d, arrayTypeCode d ≠ none → d ≠ .float64 → d ≠ .int64 → d ≠ .uint64 →
      coerceDType d = d) ∧
    ∃ out, write_dm E ref a ps po 3 = .ok out ∧
      sliceAt out DATA_ELEM_TYPE 4 = pack_be32 6 ∧
      sliceAt out (DATA_BODY + 64 + REL_DATATYPE) 4 = pack_le32 2 ∧
      sliceAt out DATA_BODY 64 = tobytes E (coerceArray E a) ∧
      (tobytes E (coerceArray E a)).length = 64 ∧
      out.length = ref.length - 30276 + 64 := by
  refine ⟨rfl, rfl, rfl, fun w => ⟨rfl, rfl⟩, ?_, ?_⟩
  · intro d h1 h2 h3 h4
    cases d <;> simp_all [coerceDType, arrayTypeCode]
  have hdl := coerce_hdl E a 4 4 hshape
  have hw4 : (coerceArray E a).dtype.itemsize = 4 := by
    rw [coerceArray_dtype, hdt]
    rfl
  refine ⟨_, write_dm_ok E ref a ps po 4 4 hshape, ?_, ?_, ?_, ?_, ?_⟩
  · rw [assemble_sliceAt_pref E ref (coerceArray E a) _ _ 4 4 _ _
      DATA_ELEM_TYPE 4 href hdl (by decide) (by decide),
      patchPref_slice_elemtype E ref _ _ _ _ (by omega), hdt]
    rfl
  · have h := assemble_sliceAt_suff E ref (coerceArray E a) (ps.getD (1, 1))
      (po.getD (0, 0)) 4 4 (elemTypeOf a.dtype) (imageDtypeOf a.dtype)
      REL_DATATYPE 4 href hdl
    rw [hw4] at h
    rw [patchSuff_slice_datatype ref (imageDtypeOf a.dtype) 4 4 4 href] at h
    rw [show (152664 + 4 * 4 * 4 : Nat) = DATA_BODY + 64 from rfl] at h
    rw [show (2 : Nat) = imageDtypeOf a.dtype from by rw [hdt]; rfl]
    exact h
  · have h := assemble_slice_payload E ref (coerceArray E a) (ps.getD (1, 1))
      (po.getD (0, 0)) 4 4 (elemTypeOf a.dtype) (imageDtypeOf a.dtype) href hdl
    rw [hw4] at h
    rw [show (4 * 4 * 4 : Nat) = 64 from rfl] at h
    exact h
  · rw [tobytes_length, hdl, hw4]
  · rw [assemble_length E ref (coerceArray E a) (ps.getD (1, 1))
      (po.getD (0, 0)) 4 4 (elemTypeOf a.dtype) (imageDtypeOf a.dtype) href hdl,
      hw4, href]

theorem C5_dtype_coercion_witness :
    refW.length = 192708 ∧ arr44f64.shape = [4, 4] ∧
    arr44f64.dtype = .float64 ∧
    (coerceDType .float64 = .float32 ∧
     coerceDType .int64 = .int32 ∧
     coerceDType .uint64 = .uint32 ∧
     (∀ w, arrayTypeCode (.other w) = none ∧
       coerceDType (.other w) = .float32) ∧
     (∀ d, arrayTypeCode d ≠ none → d ≠ .float64 → d ≠ .int64 →
       d ≠ .uint64 → coerceDType d = d) ∧
     ∃ out, write_dm zeroEnc refW arr44f64 none none 3 = .ok out ∧
       sliceAt out DATA_ELEM_TYPE 4 = pack_be32 6 ∧
       sliceAt out (DATA_BODY + 64 + REL_DATATYPE) 4 = pack_le32 2 ∧
       sliceAt out DATA_BODY 64 = tobytes zeroEnc (coerceArray zeroEnc arr44f64) ∧
       (tobytes zeroEnc (coerceArray zeroEnc arr44f64)).length = 64 ∧
       out.length = refW.length - 30276 + 64) :=
  ⟨refW_length, rfl, rfl,
   C5_dtype_coercion zeroEnc refW arr44f64 none none refW_length rfl rfl⟩

/-- C7: the concrete scenario — 4x4 int32 array with values 0..15
row-major, calibration (scale 1/2, offset 0) on both axes, version 3:
output length = reference length − 30276 + 64, header field = length
− 20, element count field = 16, storage code field = 3 (int32),
display code field = 7 (int32), column and row count fields = 4,
element width field = 4. -/
theorem C7_concrete_scenario (E : NumEnc) (ref : List Nat)
    (href : ref.length = 192708) :
    ∃ out, write_dm E ref arr44i32 (some ((1 : ℚ)/2, (1 : ℚ)/2))
        (some ((0 : ℚ), (0 : ℚ))) 3 = .ok out ∧
      out.length = ref.length - 30276 + 64 ∧
      read_be32 out 4 = out.length - 20 ∧
      read_be32 out DATA_ELEM_COUNT = 16 ∧
      read_be32 out DATA_ELEM_TYPE = 3 ∧
      read_le32 out (DATA_BODY + 64 + REL_DATATYPE) = 7 ∧
      read_le32 out (DATA_BODY + 64 + REL_DIM_NX) = 4 ∧
      read_le32 out (DATA_BODY + 64 + REL_DIM_NY) = 4 ∧
      read_le32 out (DATA_BODY + 64 + REL_PIXELDEPTH) = 4 := by
  have hshape : arr44i32.shape = [4, 4] := rfl
  have hdl := coerce_hdl E arr44i32 4 4 hshape
  have hw4 : (coerceArray E arr44i32).dtype.itemsize = 4 := by
    rw [coerceArray_dtype]
    rfl
  refine ⟨_, write_dm_ok E ref arr44i32 (some ((1 : ℚ)/2, (1 : ℚ)/2))
    (some ((0 : ℚ), (0 : ℚ))) 4 4 hshape, ?_, ?_, ?_, ?_, ?_, ?_, ?_, ?_⟩
  · rw [assemble_length E ref (coerceArray E arr44i32)
      ((some ((1 : ℚ)/2, (1 : ℚ)/2)).getD (1, 1))
      ((some ((0 : ℚ), (0 : ℚ))).getD (0, 0)) 4 4
      (elemTypeOf arr44i32.dtype) (imageDtypeOf arr44i32.dtype) href hdl,
      hw4, href]
  · have hs := assemble_slice_header E ref (coerceArray E arr44i32)
      ((some ((1 : ℚ)/2, (1 : ℚ)/2)).getD (1, 1))
      ((some ((0 : ℚ), (0 : ℚ))).getD (0, 0)) 4 4
      (elemTypeOf arr44i32.dtype) (imageDtypeOf arr44i32.dtype) href hdl
    have hl := assemble_length E ref (coerceArray E arr44i32)
      ((some ((1 : ℚ)/2, (1 : ℚ)/2)).getD (1, 1))
      ((some ((0 : ℚ), (0 : ℚ))).getD (0, 0)) 4 4
      (elemTypeOf arr44i32.dtype) (imageDtypeOf arr44i32.dtype) href hdl
    rw [hw4] at hs hl
    rw [hl]
    exact read_be32_pack _ _ _ hs (by decide)
  · have hc := assemble_sliceAt_pref E ref (coerceArray E arr44i32)
      ((some ((1 : ℚ)/2, (1 : ℚ)/2)).getD (1, 1))
      ((some ((0 : ℚ), (0 : ℚ))).getD (0, 0)) 4 4
      (elemTypeOf arr44i32.dtype) (imageDtypeOf arr44i32.dtype)
      DATA_ELEM_COUNT 4 href hdl (by decide) (by decide)
    rw [patchPref_slice_count E ref _ _ _ _ (by omega)] at hc
    exact read_be32_pack _ _ _ hc (by decide)
  · have hc := assemble_sliceAt_pref E ref (coerceArray E arr44i32)
      ((some ((1 : ℚ)/2, (1 : ℚ)/2)).getD (1, 1))
      ((some ((0 : ℚ), (0 : ℚ))).getD (0, 0)) 4 4
      (elemTypeOf arr44i32.dtype) (imageDtypeOf arr44i32.dtype)
      DATA_ELEM_TYPE 4 href hdl (by decide) (by decide)
    rw [patchPref_slice_elemtype E ref _ _ _ _ (by omega)] at hc
    exact read_be32_pack _ _ _ hc (by decide)
  · have h := assemble_sliceAt_suff E ref (coerceArray E arr44i32)
      ((some ((1 : ℚ)/2, (1 : ℚ)/2)).getD (1, 1))
      ((some ((0 : ℚ), (0 : ℚ))).getD (0, 0)) 4 4
      (elemTypeOf arr44i32.dtype) (imageDtypeOf arr44i32.dtype)
      REL_DATATYPE 4 href hdl
    rw [hw4] at h
    rw [patchSuff_slice_datatype ref (imageDtypeOf arr44i32.dtype) 4 4 4 href]
      at h
    rw [show (152664 + 4 * 4 * 4 : Nat) = DATA_BODY + 64 from rfl] at h
    exact read_le32_pack _ _ _ h (by decide)
  · have h := assemble_sliceAt_suff E ref (coerceArray E arr44i32)
      ((some ((1 : ℚ)/2, (1 : ℚ)/2)).getD (1, 1))
      ((some ((0 : ℚ), (0 : ℚ))).getD (0, 0)) 4 4
      (elemTypeOf arr44i32.dtype) (imageDtypeOf arr44i32.dtype)
      REL_DIM_NX 4 href hdl
    rw [hw4] at h
    rw [patchSuff_slice_nx ref (imageDtypeOf arr44i32.dtype) 4 4 4 href] at h
    rw [show (152664 + 4 * 4 * 4 : Nat) = DATA_BODY + 64 from rfl] at h
    exact read_le32_pack _ _ _ h (by decide)
  · have h := assemble_sliceAt_suff E ref (coerceArray E arr44i32)
      ((some ((1 : ℚ)/2, (1 : ℚ)/2)).getD (1, 1))
      ((some ((0 : ℚ), (0 : ℚ))).getD (0, 0)) 4 4
      (elemTypeOf arr44i32.dtype) (imageDtypeOf arr44i32.dtype)
      REL_DIM_NY 4 href hdl
    rw [hw4] at h
    rw [patchSuff_slice_ny ref (imageDtypeOf arr44i32.dtype) 4 4 4 href] at h
    rw [show (152664 + 4 * 4 * 4 : Nat) = DATA_BODY + 64 from rfl] at h
    exact read_le32_pack _ _ _ h (by decide)
  · have h := assemble_sliceAt_suff E ref (coerceArray E arr44i32)
      ((some ((1 : ℚ)/2, (1 : ℚ)/2)).getD (1, 1))
      ((some ((0 : ℚ), (0 : ℚ))).getD (0, 0)) 4 4
      (elemTypeOf arr44i32.dtype) (imageDtypeOf arr44i32.dtype)
      REL_PIXELDEPTH 4 href hdl
    rw [hw4] at h
    rw [patchSuff_slice_depth ref (imageDtypeOf arr44i32.dtype) 4 4 4 href] at h
    rw [show (152664 + 4 * 4 * 4 : Nat) = DATA_BODY + 64 from rfl] at h
    exact read_le32_pack _ _ _ h (by decide)

theorem C7_concrete_scenario_witness :
    refW.length = 192708 ∧
    (∃ out, write_dm zeroEnc refW arr44i32 (some ((1 : ℚ)/2, (1 : ℚ)/2))
        (some ((0 : ℚ), (0 : ℚ))) 3 = .ok out ∧
      out.length = refW.length - 30276 + 64 ∧
      read_be32 out 4 = out.length - 20 ∧
      read_be32 out DATA_ELEM_COUNT = 16 ∧
      read_be32 out DATA_ELEM_TYPE = 3 ∧
      read_le32 out (DATA_BODY + 64 + REL_DATATYPE) = 7 ∧
      read_le32 out (DATA_BODY + 64 + REL_DIM_NX) = 4 ∧
      read_le32 out (DATA_BODY + 64 + REL_DIM_NY) = 4 ∧
      read_le32 out (DATA_BODY + 64 + REL_PIXELDEPTH) = 4) :=
  ⟨refW_length, C7_concrete_scenario zeroEnc refW refW_length⟩

/-- C9: for every accepted input, the element width after coercion is
1, 2 or 4 (never 8), and it is exactly the value written to the
pixel-depth field; the 64-bit-float storage code 7 and display code 12
do appear in the type tables but the coerced dtype never maps to them. -/
theorem C9_element_width_invariant (E : NumEnc) (ref : List Nat) (a : NDArray)
    (ps po : Option (ℚ × ℚ)) (ny nx : Nat)
    (href : ref.length = 192708) (hshape : a.shape = [ny, nx]) :
    ((coerceDType a.dtype).itemsize = 1 ∨ (coerceDType a.dtype).itemsize = 2 ∨
      (coerceDType a.dtype).itemsize = 4) ∧
    elemTypeOf a.dtype ≠ 7 ∧
    imageDtypeOf a.dtype ≠ 12 ∧
    arrayTypeCode .float64 = some 7 ∧
    imageDtypeCode .float64 = some 12 ∧
    ∃ out, write_dm E ref a ps po 3 = .ok out ∧
      read_le32 out (DATA_BODY + ny * nx * (coerceDType a.dtype).itemsize
        + REL_PIXELDEPTH) = (coerceDType a.dtype).itemsize := by
  refine ⟨coerceDType_itemsize_cases a.dtype, elemTypeOf_ne_seven a.dtype,
    imageDtypeOf_ne_twelve a.dtype, rfl, rfl, ?_⟩
  have hdl := coerce_hdl E a ny nx hshape
  refine ⟨_, write_dm_ok E ref a ps po ny nx hshape, ?_⟩
  have h := assemble_sliceAt_suff E ref (coerceArray E a) (ps.getD (1, 1))
    (po.getD (0, 0)) ny nx (elemTypeOf a.dtype) (imageDtypeOf a.dtype)
    REL_PIXELDEPTH 4 href hdl
  rw [patchSuff_slice_depth ref (imageDtypeOf a.dtype) nx ny
    ((coerceArray E a).dtype.itemsize) href] at h
  rw [coerceArray_dtype] at h
  exact read_le32_pack _ _ _ h
    (by rcases coerceDType_itemsize_cases a.dtype with h1 | h1 | h1 <;> omega)

theorem C9_element_width_invariant_witness :
    refW.length = 192708 ∧ arr11i32.shape = [1, 1] ∧
    (((coerceDType arr11i32.dtype).itemsize = 1 ∨
      (coerceDType arr11i32.dtype).itemsize = 2 ∨
      (coerceDType arr11i32.dtype).itemsize = 4) ∧
     elemTypeOf arr11i32.dtype ≠ 7 ∧
     imageDtypeOf arr11i32.dtype ≠ 12 ∧
     arrayTypeCode .float64 = some 7 ∧
     imageDtypeCode .float64 = some 12 ∧
     ∃ out, write_dm zeroEnc refW arr11i32 none none 3 = .ok out ∧
       read_le32 out (DATA_BODY + 1 * 1 * (coerceDType arr11i32.dtype).itemsize
         + REL_PIXELDEPTH) = (coerceDType arr11i32.dtype).itemsize) :=
  ⟨refW_length, rfl,
   C9_element_width_invariant zeroEnc refW arr11i32 none none 1 1
     refW_length rfl⟩

/-- C10: two equal-shape 2-D arrays, one int8 and one uint8, receive
the same storage type code 10 in the element-type field (so that field
alone does not distinguish signedness of 1-byte elements), while their
display type codes differ: 9 for int8, 6 for uint8. -/
theorem C10_int8_uint8_codes (E : NumEnc) (ref : List Nat) (a b : NDArray)
    (ps po : Option (ℚ × ℚ)) (ny nx : Nat)
    (href : ref.length = 192708) (hsa : a.shape = [ny, nx])
    (hsb : b.shape = [ny, nx]) (hda : a.dtype = .int8) (hdb : b.dtype = .uint8) :
    ∃ outA outB,
      write_dm E ref a ps po 3 = .ok outA ∧
      write_dm E ref b ps po 3 = .ok outB ∧
      sliceAt outA DATA_ELEM_TYPE 4 = pack_be32 10 ∧
      sliceAt outB DATA_ELEM_TYPE 4 = pack_be32 10 ∧
      sliceAt outA DATA_ELEM_TYPE 4 = sliceAt outB DATA_ELEM_TYPE 4 ∧
      read_le32 outA (DATA_BODY + ny * nx * 1 + REL_DATATYPE) = 9 ∧
      read_le32 outB (DATA_BODY + ny * nx * 1 + REL_DATATYPE) = 6 := by
  have hdla := coerce_hdl E a ny nx hsa
  have hdlb := coerce_hdl E b ny nx hsb
  have hwa : (coerceArray E a).dtype.itemsize = 1 := by
    rw [coerceArray_dtype, hda]
    rfl
  have hwb : (coerceArray E b).dtype.itemsize = 1 := by
    rw [coerceArray_dtype, hdb]
    rfl
  refine ⟨_, _, write_dm_ok E ref a ps po ny nx hsa,
    write_dm_ok E ref b ps po ny nx hsb, ?_, ?_, ?_, ?_, ?_⟩
  · rw [assemble_sliceAt_pref E ref (coerceArray E a) _ _ ny nx _ _
      DATA_ELEM_TYPE 4 href hdla (by decide) (by decide),
      patchPref_slice_elemtype E ref _ _ _ _ (by omega), hda]
    rfl
  · rw [assemble_sliceAt_pref E ref (coerceArray E b) _ _ ny nx _ _
      DATA_ELEM_TYPE 4 href hdlb (by decide) (by decide),
      patchPref_slice_elemtype E ref _ _ _ _ (by omega), hdb]
    rfl
  · rw [assemble_sliceAt_pref E ref (coerceArray E a) _ _ ny nx _ _
      DATA_ELEM_TYPE 4 href hdla (by decide) (by decide),
      patchPref_slice_elemtype E ref _ _ _ _ (by omega),
      assemble_sliceAt_pref E ref (coerceArray E b) _ _ ny nx _ _
      DATA_ELEM_TYPE 4 href hdlb (by decide) (by decide),
      patchPref_slice_elemtype E ref _ _ _ _ (by omega), hda, hdb]
    rfl
  · have h := assemble_sliceAt_suff E ref (coerceArray E a) (ps.getD (1, 1))
      (po.getD (0, 0)) ny nx (elemTypeOf a.dtype) (imageDtypeOf a.dtype)
      REL_DATATYPE 4 href hdla
    rw [hwa] at h
    rw [patchSuff_slice_datatype ref (imageDtypeOf a.dtype) nx ny 1 href] at h
    rw [show (9 : Nat) = imageDtypeOf a.dtype from by rw [hda]; rfl]
    exact read_le32_pack _ _ _ h (by rw [hda]; decide)
  · have h := assemble_sliceAt_suff E ref (coerceArray E b) (ps.getD (1, 1))
      (po.getD (0, 0)) ny nx (elemTypeOf b.dtype) (imageDtypeOf b.dtype)
      REL_DATATYPE 4 href hdlb
    rw [hwb] at h
    rw [patchSuff_slice_datatype ref (imageDtypeOf b.dtype) nx ny 1 href] at h
    rw [show (6 : Nat) = imageDtypeOf b.dtype from by rw [hdb]; rfl]
    exact read_le32_pack _ _ _ h (by rw [hdb]; decide)

theorem C10_int8_uint8_codes_witness :
    refW.length = 192708 ∧ arr23i8.shape = [2, 3] ∧ arr23u8.shape = [2, 3] ∧
    arr23i8.dtype = .int8 ∧ arr23u8.dtype = .uint8 ∧
    (∃ outA outB,
      write_dm zeroEnc refW arr23i8 none none 3 = .ok outA ∧
      write_dm zeroEnc refW arr23u8 none none 3 = .ok outB ∧
      sliceAt outA DATA_ELEM_TYPE 4 = pack_be32 10 ∧
      sliceAt outB DATA_ELEM_TYPE 4 = pack_be32 10 ∧
      sliceAt outA DATA_ELEM_TYPE 4 = sliceAt outB DATA_ELEM_TYPE 4 ∧
      read_le32 outA (DATA_BODY + 2 * 3 * 1 + REL_DATATYPE) = 9 ∧
      read_le32 outB (DATA_BODY + 2 * 3 * 1 + REL_DATATYPE) = 6) :=
  ⟨refW_length, rfl, rfl, rfl, rfl,
   C10_int8_uint8_codes zeroEnc refW arr23i8 arr23u8 none none 2 3
     refW_length rfl rfl rfl rfl⟩
